import Mathlib

/-!
# AMI Legion orchestration layer: a shallow embedding of `src/legion`

The orchestrator (`toplevel.cc`) talks to the Legion runtime through a handful of
calls.  The runtime is an external collaborator, so it is embedded here as an
explicit state (`Runtime`) that hands out fresh handles, records every call in a
trace, and keeps the contents of the logical regions and of the external files.
The orchestrator functions are state-passing functions over that state, written
from the C++ bodies line by line.
-/

namespace Ami

/-! ## Handles and launchers of the Legion interface (`legion.h`) -/

/-- Legion field identifier (`FieldID`, an unsigned integer). -/
abbrev FieldID := Nat

/-- Task identifiers, `TopLevelTask::TaskIdEnum` in `toplevel.hpp`. -/
inductive TaskIdEnum
  | TOP_LEVEL_TASK
  | WORKER_TASK
  | COLLECTOR_TASK
  | SHARED_MEMORY_DATA_SOURCE_TASK
  | FILE_DATA_SOURCE_TASK
  | GRAPH_MANAGER_TASK
  | ROBUSTNESS_MONITOR_TASK
  deriving DecidableEq, Repr

/-- Width of the C++ `unsigned` type: arithmetic on it is modulo `2^32`. -/
def UNSIGNED_MOD : Nat := 2 ^ 32

/-- Unsigned 32-bit addition. -/
def uadd (a b : Nat) : Nat := (a + b) % UNSIGNED_MOD

/-- Unsigned 32-bit subtraction. -/
def usub (a b : Nat) : Nat := (a % UNSIGNED_MOD + UNSIGNED_MOD - b % UNSIGNED_MOD) % UNSIGNED_MOD

/-- Constant `TopLevelTask::MAX_CLIENTS`. -/
def MAX_CLIENTS : Nat := 1024

/-- Constant `TopLevelTask::MAX_INDEX_POINTS_PER_ENTITY`. -/
def MAX_INDEX_POINTS_PER_ENTITY : Nat := 128

/-- The value of `sizeof(int)`, the size of one cell. -/
def sizeof_int : Nat := 4

/-! `TopLevelTask::RegionFieldEnum`, in declaration order. -/

def TELEMETRY_TIMESTAMP : FieldID := 0
def TELEMETRY_TIMESTAMP_ : FieldID := 1
def TELEMETRY_DATA : FieldID := 2
def TELEMETRY_DATA_ : FieldID := 3
def RESULT_TIMESTAMP : FieldID := 4
def RESULT_TIMESTAMP_ : FieldID := 5
def RESULT_DATA : FieldID := 6
def RESULT_DATA_ : FieldID := 7
def CONTROL_TIMESTAMP : FieldID := 8
def CONTROL_TIMESTAMP_ : FieldID := 9
def CONTROL_DATA : FieldID := 10
def CONTROL_DATA_ : FieldID := 11

/-- A two-dimensional point (`Point<2>`), coordinates are signed 64-bit. -/
structure Point2 where
  x : Int
  y : Int
  deriving DecidableEq, Repr

/-- A two-dimensional rectangle with inclusive bounds (`Rect<2>`). -/
structure Rect2 where
  lo : Point2
  hi : Point2
  deriving DecidableEq, Repr

/-- A one-dimensional rectangle with inclusive bounds (`Rect<1>`). -/
structure Rect1 where
  lo : Int
  hi : Int
  deriving DecidableEq, Repr

/-- Number of values of an inclusive integer interval. -/
def extent (lo hi : Int) : Nat := (hi - lo + 1).toNat

/-- The rows of a one-dimensional launch domain, in increasing order. -/
def Rect1.points (r : Rect1) : List Int :=
  (List.range (extent r.lo r.hi)).map (fun (k : Nat) => r.lo + Int.ofNat k)

/-- Number of values along dimension 0 (the entity dimension). -/
def Rect2.extent0 (r : Rect2) : Nat := extent r.lo.x r.hi.x

/-- Number of values along dimension 1 (the sample-slot dimension). -/
def Rect2.extent1 (r : Rect2) : Nat := extent r.lo.y r.hi.y

structure IndexSpace where
  id : Nat
  deriving DecidableEq, Repr

structure FieldSpace where
  id : Nat
  deriving DecidableEq, Repr

/-- A logical region is named by its tree id, index space and field space. -/
structure LogicalRegion where
  treeId : Nat
  indexSpace : IndexSpace
  fieldSpace : FieldSpace
  deriving DecidableEq, Repr

structure LogicalPartition where
  id : Nat
  deriving DecidableEq, Repr

structure FutureMap where
  id : Nat
  deriving DecidableEq, Repr

structure PhysicalRegion where
  id : Nat
  deriving DecidableEq, Repr

/-- Default-constructed handles (`NO_SPACE`, `NO_REGION`, `NO_PART`). -/
def IndexSpace.NO_SPACE : IndexSpace := ⟨0⟩
def FieldSpace.NO_SPACE : FieldSpace := ⟨0⟩
def LogicalRegion.NO_REGION : LogicalRegion := ⟨0, ⟨0⟩, ⟨0⟩⟩
def LogicalPartition.NO_PART : LogicalPartition := ⟨0⟩

/-- A future: the result of one row of a fan-out launch. -/
structure Future where
  map : FutureMap
  point : Int
  deriving DecidableEq, Repr

/-- An `ArgumentMap` is either default-constructed (no per-point argument) or
built from a `FutureMap` (`ArgumentMap(const FutureMap&)`). -/
inductive ArgumentMap
  | empty
  | ofFutureMap (fm : FutureMap)
  deriving DecidableEq, Repr

/-- The per-point argument an `ArgumentMap` supplies to row `p`. -/
def ArgumentMap.pointArgument : ArgumentMap → Int → Option Future
  | .empty, _ => none
  | .ofFutureMap fm, p => some ⟨fm, p⟩

/-- `IndexTaskLauncher(task_id, domain, TaskArgument(NULL, 0), argument_map)`. -/
structure IndexTaskLauncher where
  task_id : TaskIdEnum
  launch_domain : Rect1
  global_arg_size : Nat
  argument_map : ArgumentMap
  deriving DecidableEq, Repr

inductive PrivilegeMode
  | NO_ACCESS
  | READ_ONLY
  | READ_WRITE
  | WRITE_DISCARD
  | REDUCE
  deriving DecidableEq, Repr

inductive CoherenceProperty
  | EXCLUSIVE
  | ATOMIC
  | SIMULTANEOUS
  | RELAXED
  deriving DecidableEq, Repr

/-- `RegionRequirement(region, privilege, coherence, parent)` with the fields
added by `add_field`. -/
structure RegionRequirement where
  region : LogicalRegion
  privilege : PrivilegeMode
  prop : CoherenceProperty
  parent : LogicalRegion
  privilege_fields : List FieldID
  deriving DecidableEq, Repr

/-- `RegionRequirement::add_field(fid)`. -/
def RegionRequirement.add_field (r : RegionRequirement) (f : FieldID) : RegionRequirement :=
  { r with privilege_fields := r.privilege_fields ++ [f] }

inductive ExternalResource
  | EXTERNAL_POSIX_FILE
  | EXTERNAL_HDF5_FILE
  | EXTERNAL_INSTANCE
  deriving DecidableEq, Repr

inductive LegionFileMode
  | LEGION_FILE_READ_ONLY
  | LEGION_FILE_READ_WRITE
  | LEGION_FILE_CREATE
  deriving DecidableEq, Repr

/-- `AttachLauncher(resource, handle, parent)` after `attach_file`. -/
structure AttachLauncher where
  resource : ExternalResource
  handle : LogicalRegion
  parent : LogicalRegion
  file_name : String
  file_fields : List FieldID
  mode : LegionFileMode
  deriving DecidableEq, Repr

/-- `AttachLauncher::attach_file(file_name, fields, mode)`. -/
def AttachLauncher.attach_file (l : AttachLauncher) (name : String) (fields : List FieldID)
    (mode : LegionFileMode) : AttachLauncher :=
  { l with file_name := name, file_fields := fields, mode := mode }

/-- `CopyLauncher`: parallel lists of source and destination requirements. -/
structure CopyLauncher where
  src_requirements : List RegionRequirement
  dst_requirements : List RegionRequirement
  deriving DecidableEq, Repr

/-- `CopyLauncher::add_copy_requirements(src, dst)`. -/
def CopyLauncher.add_copy_requirements (c : CopyLauncher) (src dst : RegionRequirement) :
    CopyLauncher :=
  { src_requirements := c.src_requirements ++ [src],
    dst_requirements := c.dst_requirements ++ [dst] }

/-- One call made on the runtime, with the handle it returned. -/
inductive Operation
  | create_index_space (rect : Rect2) (result : IndexSpace)
  | create_field_space (result : FieldSpace)
  | create_field_allocator (fs : FieldSpace)
  | allocate_field (fs : FieldSpace) (size : Nat) (desired : FieldID) (returned : FieldID)
  | create_logical_region (is : IndexSpace) (fs : FieldSpace) (result : LogicalRegion)
  | attach_name_index_space (h : IndexSpace) (name : String)
  | attach_name_field_space (h : FieldSpace) (name : String)
  | attach_name_region (h : LogicalRegion) (name : String)
  | execute_index_space (launcher : IndexTaskLauncher) (result : FutureMap)
  | attach_external_resource (launcher : AttachLauncher) (result : PhysicalRegion)
  | issue_copy_operation (launcher : CopyLauncher)
  | detach_external_resource (h : PhysicalRegion)
  deriving DecidableEq, Repr

/-- Contents of a region or of a file: one integer cell per column and row. -/
abbrev Cells := FieldID → Point2 → Int

/-- An external file-backed store: the columns it holds and their cells. -/
structure ExternalFile where
  fields : List FieldID
  cells : Cells

/-- State of the Legion runtime as seen by the orchestrator.
`allocator size desired` is the id the field allocator hands back, `nextId` the
next fresh handle, `trace` the calls made so far (oldest first), `data` the
contents of every logical region, `attached` the live external bindings and
`files` the external stores by name. -/
structure Runtime where
  allocator : Nat → FieldID → FieldID
  nextId : Nat
  trace : List Operation
  data : LogicalRegion → Cells
  attached : List (PhysicalRegion × AttachLauncher)
  files : String → Option ExternalFile

/-- Record one call in the trace. -/
def Runtime.log (rt : Runtime) (op : Operation) : Runtime :=
  { rt with trace := rt.trace ++ [op] }

/-- Take the next fresh handle number. -/
def Runtime.fresh (rt : Runtime) : Nat × Runtime :=
  (rt.nextId, { rt with nextId := rt.nextId + 1 })

/-- Runtime call `create_index_space(ctx, rect)`: recorded, answered with a
fresh index-space handle. -/
def Runtime.create_index_space (rt : Runtime) (rect : Rect2) : IndexSpace × Runtime :=
  let (n, rt) := rt.fresh
  (⟨n⟩, rt.log (.create_index_space rect ⟨n⟩))

/-- Runtime call `create_field_space(ctx)`: recorded, answered with a fresh
field-space handle. -/
def Runtime.create_field_space (rt : Runtime) : FieldSpace × Runtime :=
  let (n, rt) := rt.fresh
  (⟨n⟩, rt.log (.create_field_space ⟨n⟩))

/-- A `FieldAllocator` is bound to the field space it allocates in. -/
structure FieldAllocator where
  fieldSpace : FieldSpace
  deriving DecidableEq, Repr

/-- Runtime call `create_field_allocator(ctx, fieldSpace)`: recorded. -/
def Runtime.create_field_allocator (rt : Runtime) (fs : FieldSpace) : FieldAllocator × Runtime :=
  (⟨fs⟩, rt.log (.create_field_allocator fs))

/-- Allocator call `allocate_field(size, desired_id)`: recorded with the id the
runtime's allocator hands back, which is returned. -/
def FieldAllocator.allocate_field (a : FieldAllocator) (rt : Runtime) (size : Nat)
    (desired : FieldID) : FieldID × Runtime :=
  let got := rt.allocator size desired
  (got, rt.log (.allocate_field a.fieldSpace size desired got))

/-- Runtime call `create_logical_region(ctx, indexSpace, fieldSpace)`: recorded,
answered with a region of a fresh tree id over the two spaces. -/
def Runtime.create_logical_region (rt : Runtime) (is : IndexSpace) (fs : FieldSpace) :
    LogicalRegion × Runtime :=
  let (n, rt) := rt.fresh
  (⟨n, is, fs⟩, rt.log (.create_logical_region is fs ⟨n, is, fs⟩))

/-- Runtime call `attach_name` on an index space, a field space or a region:
recorded. -/
def Runtime.attach_name_index_space (rt : Runtime) (h : IndexSpace) (name : String) : Runtime :=
  rt.log (.attach_name_index_space h name)

def Runtime.attach_name_field_space (rt : Runtime) (h : FieldSpace) (name : String) : Runtime :=
  rt.log (.attach_name_field_space h name)

def Runtime.attach_name_region (rt : Runtime) (h : LogicalRegion) (name : String) : Runtime :=
  rt.log (.attach_name_region h name)

/-- Runtime call `execute_index_space(ctx, launcher)`: recorded, answered with
a fresh future map.  The launch is issued, not awaited. -/
def Runtime.execute_index_space (rt : Runtime) (l : IndexTaskLauncher) : FutureMap × Runtime :=
  let (n, rt) := rt.fresh
  (⟨n⟩, rt.log (.execute_index_space l ⟨n⟩))

/-! ## Column schema builders (`toplevel.cc`, lines 64-127) -/

/-- The by-reference outputs of a field-space builder together with the runtime
state: what the caller sees when the builder returns, or what had been done
when an `assert` stopped it. -/
structure FieldSpaceVars where
  rt : Runtime
  fieldSpace : FieldSpace
  persistentFields : List FieldID
  shadowFields : List FieldID

/-- Ways a run stops before returning: a failed `assert` (process abort), with
the state reached when it fired, or an iterator dereferenced past the end of
its vector (undefined behaviour). -/
inductive Failure
  | assertFailed (reached : FieldSpaceVars)
  | pastTheEnd

/-- Type of the `createFieldSpace` function pointer. -/
abbrev FieldSpaceBuilder :=
  Runtime → FieldSpace → List FieldID → List FieldID → Except Failure FieldSpaceVars

/-- Embeds `TopLevelTask::createTelemetryFieldSpace`. -/
def createTelemetryFieldSpace : FieldSpaceBuilder :=
  fun rt _ persistentFields shadowFields => do
    let (fieldSpace, rt) := rt.create_field_space
    let (allocator, rt) := rt.create_field_allocator fieldSpace
    let (fieldId, rt) := allocator.allocate_field rt sizeof_int TELEMETRY_TIMESTAMP
    if fieldId ≠ TELEMETRY_TIMESTAMP then
      throw (.assertFailed ⟨rt, fieldSpace, persistentFields, shadowFields⟩)
    let persistentFields := persistentFields ++ [TELEMETRY_TIMESTAMP]
    let (fieldId, rt) := allocator.allocate_field rt sizeof_int TELEMETRY_TIMESTAMP_
    if fieldId ≠ TELEMETRY_TIMESTAMP_ then
      throw (.assertFailed ⟨rt, fieldSpace, persistentFields, shadowFields⟩)
    let shadowFields := shadowFields ++ [TELEMETRY_TIMESTAMP_]
    let (fieldId, rt) := allocator.allocate_field rt sizeof_int TELEMETRY_DATA
    if fieldId ≠ TELEMETRY_DATA then
      throw (.assertFailed ⟨rt, fieldSpace, persistentFields, shadowFields⟩)
    let persistentFields := persistentFields ++ [TELEMETRY_DATA]
    let (fieldId, rt) := allocator.allocate_field rt sizeof_int TELEMETRY_DATA_
    if fieldId ≠ TELEMETRY_DATA_ then
      throw (.assertFailed ⟨rt, fieldSpace, persistentFields, shadowFields⟩)
    let shadowFields := shadowFields ++ [TELEMETRY_DATA_]
    return ⟨rt, fieldSpace, persistentFields, shadowFields⟩

/-- Embeds `TopLevelTask::createResultFieldSpace`. -/
def createResultFieldSpace : FieldSpaceBuilder :=
  fun rt _ persistentFields shadowFields => do
    let (fieldSpace, rt) := rt.create_field_space
    let (allocator, rt) := rt.create_field_allocator fieldSpace
    let (fieldId, rt) := allocator.allocate_field rt sizeof_int RESULT_TIMESTAMP
    if fieldId ≠ RESULT_TIMESTAMP then
      throw (.assertFailed ⟨rt, fieldSpace, persistentFields, shadowFields⟩)
    let persistentFields := persistentFields ++ [RESULT_TIMESTAMP]
    let (fieldId, rt) := allocator.allocate_field rt sizeof_int RESULT_TIMESTAMP_
    if fieldId ≠ RESULT_TIMESTAMP_ then
      throw (.assertFailed ⟨rt, fieldSpace, persistentFields, shadowFields⟩)
    let shadowFields := shadowFields ++ [RESULT_TIMESTAMP_]
    let (fieldId, rt) := allocator.allocate_field rt sizeof_int RESULT_DATA
    if fieldId ≠ RESULT_DATA then
      throw (.assertFailed ⟨rt, fieldSpace, persistentFields, shadowFields⟩)
    let persistentFields := persistentFields ++ [RESULT_DATA]
    let (fieldId, rt) := allocator.allocate_field rt sizeof_int RESULT_DATA_
    if fieldId ≠ RESULT_DATA_ then
      throw (.assertFailed ⟨rt, fieldSpace, persistentFields, shadowFields⟩)
    let shadowFields := shadowFields ++ [RESULT_DATA_]
    return ⟨rt, fieldSpace, persistentFields, shadowFields⟩

/-- Embeds `TopLevelTask::createControlFieldSpace`. -/
def createControlFieldSpace : FieldSpaceBuilder :=
  fun rt _ persistentFields shadowFields => do
    let (fieldSpace, rt) := rt.create_field_space
    let (allocator, rt) := rt.create_field_allocator fieldSpace
    let (fieldId, rt) := allocator.allocate_field rt sizeof_int CONTROL_TIMESTAMP
    if fieldId ≠ CONTROL_TIMESTAMP then
      throw (.assertFailed ⟨rt, fieldSpace, persistentFields, shadowFields⟩)
    let persistentFields := persistentFields ++ [CONTROL_TIMESTAMP]
    let (fieldId, rt) := allocator.allocate_field rt sizeof_int CONTROL_TIMESTAMP_
    if fieldId ≠ CONTROL_TIMESTAMP_ then
      throw (.assertFailed ⟨rt, fieldSpace, persistentFields, shadowFields⟩)
    let shadowFields := shadowFields ++ [CONTROL_TIMESTAMP_]
    let (fieldId, rt) := allocator.allocate_field rt sizeof_int CONTROL_DATA
    if fieldId ≠ CONTROL_DATA then
      throw (.assertFailed ⟨rt, fieldSpace, persistentFields, shadowFields⟩)
    let persistentFields := persistentFields ++ [CONTROL_DATA]
    let (fieldId, rt) := allocator.allocate_field rt sizeof_int CONTROL_DATA_
    if fieldId ≠ CONTROL_DATA_ then
      throw (.assertFailed ⟨rt, fieldSpace, persistentFields, shadowFields⟩)
    let shadowFields := shadowFields ++ [CONTROL_DATA_]
    return ⟨rt, fieldSpace, persistentFields, shadowFields⟩

/-- The three table kinds. -/
inductive TableKind
  | telemetry
  | result
  | control
  deriving DecidableEq, Repr

/-- The builder that `create<Kind>LogicalRegion` passes as `createFieldSpace`. -/
def TableKind.builder : TableKind → FieldSpaceBuilder
  | .telemetry => createTelemetryFieldSpace
  | .result => createResultFieldSpace
  | .control => createControlFieldSpace

/-- The `RegionFieldEnum` constants of a table kind, in declaration order. -/
def TableKind.timestamp : TableKind → FieldID
  | .telemetry => TELEMETRY_TIMESTAMP
  | .result => RESULT_TIMESTAMP
  | .control => CONTROL_TIMESTAMP

def TableKind.timestamp_shadow : TableKind → FieldID
  | .telemetry => TELEMETRY_TIMESTAMP_
  | .result => RESULT_TIMESTAMP_
  | .control => CONTROL_TIMESTAMP_

def TableKind.data : TableKind → FieldID
  | .telemetry => TELEMETRY_DATA
  | .result => RESULT_DATA
  | .control => CONTROL_DATA

def TableKind.data_shadow : TableKind → FieldID
  | .telemetry => TELEMETRY_DATA_
  | .result => RESULT_DATA_
  | .control => CONTROL_DATA_

/-- The shadow column paired with a persistent column: in `RegionFieldEnum`
every persistent constant `X` is directly followed by its shadow `X_`. -/
def shadowColumnOf (f : FieldID) : FieldID := f + 1

/-! ## Table creation (`toplevel.cc`, lines 130-190) -/

/-- The six static members that describe one table
(`m<Kind>IndexSpace`, `m<Kind>FieldSpace`, `m<Kind>Region`,
`m<Kind>LogicalPartition`, `m<Kind>PersistentFields`, `m<Kind>ShadowFields`),
which `createLogicalRegionWithPartition` receives by reference. -/
structure RegionVars where
  regionIndexSpace : IndexSpace
  regionFieldSpace : FieldSpace
  region : LogicalRegion
  regionPartition : LogicalPartition
  regionPersistentFields : List FieldID
  regionShadowFields : List FieldID
  deriving DecidableEq, Repr

/-- Static initial value of a table's members: null handles, empty vectors. -/
def RegionVars.initial : RegionVars :=
  ⟨IndexSpace.NO_SPACE, FieldSpace.NO_SPACE, LogicalRegion.NO_REGION, LogicalPartition.NO_PART, [], []⟩

/-- Embeds `TopLevelTask::createLogicalRegionWithPartition`: the reference
parameters come in as `v` and go out as the returned `RegionVars`. -/
def createLogicalRegionWithPartition (rt : Runtime) (name : String) (numEntities : Nat)
    (createFieldSpace : FieldSpaceBuilder) (v : RegionVars) :
    Except Failure (RegionVars × Runtime) := do
  let low : Point2 := ⟨0, 0⟩
  let high : Point2 := ⟨usub numEntities 1, usub MAX_INDEX_POINTS_PER_ENTITY 1⟩
  let regionRect : Rect2 := ⟨low, high⟩
  let (regionIndexSpace, rt) := rt.create_index_space regionRect
  let rt := rt.attach_name_index_space regionIndexSpace (name ++ "IndexSpace")
  let built ← createFieldSpace rt v.regionFieldSpace v.regionPersistentFields v.regionShadowFields
  let rt := built.rt.attach_name_field_space built.fieldSpace (name ++ "FieldSpace")
  let (region, rt) := rt.create_logical_region regionIndexSpace built.fieldSpace
  let rt := rt.attach_name_region region name
  return ({ regionIndexSpace := regionIndexSpace,
            regionFieldSpace := built.fieldSpace,
            region := region,
            regionPartition := v.regionPartition,
            regionPersistentFields := built.persistentFields,
            regionShadowFields := built.shadowFields }, rt)

/-! ## The file data source (`file_data_source.cc`) -/

/-- The part of a `std::ifstream` the code can observe. -/
structure IfStream where
  is_open : Bool
  failbit : Bool
  deriving DecidableEq, Repr

/-- Static members of `FileDataSource`. -/
structure FileDataSource where
  mFilePathBase : String
  mInputFile : IfStream
  mOpenedDataSource : Bool
  mSelectedDataSource : Bool
  deriving DecidableEq, Repr

/-- The file system as the data source meets it: which names can be opened for
reading, every name passed to `ifstream::open` so far (oldest first), and how
often `writeTelemetryDataToRegion` has run. -/
structure FileWorld where
  readable : String → Bool
  openAttempts : List String
  framesWritten : Nat

/-- State after `FileDataSource::FileDataSource()`. -/
def FileDataSource.initial : FileDataSource :=
  { mFilePathBase := "", mInputFile := ⟨false, false⟩,
    mOpenedDataSource := false, mSelectedDataSource := false }

/-- Embeds `FileDataSource::selectFileDataSource`. -/
def FileDataSource.selectFileDataSource (s : FileDataSource) (filePathBase : String) :
    FileDataSource :=
  { s with mFilePathBase := filePathBase, mSelectedDataSource := true }

/-- Embeds `FileDataSource::dataSourceFileName`. -/
def FileDataSource.dataSourceFileName (base : String) : String :=
  base ++ "_file.dat"

/-- Behaviour of `std::ifstream::open`: it fails when the stream is already open
or the file cannot be read, and a failure sets `failbit`. -/
def IfStream.open (f : IfStream) (canRead : Bool) : IfStream :=
  if f.is_open then { f with failbit := true }
  else if canRead then { is_open := true, failbit := false }
  else { is_open := false, failbit := true }

/-- Embeds `FileDataSource::openFileDataSource`. -/
def FileDataSource.openFileDataSource (s : FileDataSource) (w : FileWorld) (base : String) :
    FileDataSource × FileWorld :=
  let filename := FileDataSource.dataSourceFileName base
  let stream := s.mInputFile.open (w.readable filename)
  ({ s with mInputFile := stream, mOpenedDataSource := true },
   { w with openAttempts := w.openAttempts ++ [filename] })

/-- Embeds `FileDataSource::telemetryDataExists`. -/
def FileDataSource.telemetryDataExists (s : FileDataSource) : Bool :=
  if s.mOpenedDataSource then true else false

/-- Embeds `FileDataSource::writeTelemetryDataToRegion`, whose body is empty;
the call is counted. -/
def FileDataSource.writeTelemetryDataToRegion (w : FileWorld) : FileWorld :=
  { w with framesWritten := w.framesWritten + 1 }

/-- Embeds `FileDataSource::task`. -/
def FileDataSource.task (s : FileDataSource) (w : FileWorld) : FileDataSource × FileWorld :=
  let (s, w) :=
    if !s.mOpenedDataSource && s.mSelectedDataSource then
      s.openFileDataSource w s.mFilePathBase
    else (s, w)
  if s.telemetryDataExists then (s, FileDataSource.writeTelemetryDataToRegion w) else (s, w)

/-- Run `FileDataSource::task` `n` times in a row. -/
def FileDataSource.tasks : Nat → FileDataSource → FileWorld → FileDataSource × FileWorld
  | 0, s, w => (s, w)
  | n + 1, s, w =>
    let (s, w) := s.task w
    FileDataSource.tasks n s w

/-! ## The orchestrator (`toplevel.cc`) -/

/-- Static members of `TopLevelTask`. -/
structure TopLevelTask where
  mDataSource : TaskIdEnum
  mNumWorkers : Nat
  mNumGraphManagers : Nat
  mNumRobustnessMonitors : Nat
  mFilePathBase : Option String
  mFileDataSource : FileDataSource
  telemetry : RegionVars
  result : RegionVars
  control : RegionVars
  deriving DecidableEq, Repr

/-- Embeds `TopLevelTask::collectEnvironmentVariables`; `getenv` is the process
environment, `none` standing for the null pointer. -/
def TopLevelTask.collectEnvironmentVariables (getenv : String → Option String)
    (t : TopLevelTask) : TopLevelTask :=
  { t with mFilePathBase := getenv "AMI2_FILE_PATH_BASE" }

/-- Embeds the constructor `TopLevelTask::TopLevelTask()`, run on the static
initial values of the members it does not assign (null handles, empty vectors,
a freshly constructed file data source). -/
def TopLevelTask.construct (getenv : String → Option String) : TopLevelTask :=
  TopLevelTask.collectEnvironmentVariables getenv
    { mDataSource := .FILE_DATA_SOURCE_TASK,
      mNumWorkers := 1, mNumGraphManagers := 1, mNumRobustnessMonitors := 1,
      mFilePathBase := none,
      mFileDataSource := FileDataSource.initial,
      telemetry := RegionVars.initial,
      result := RegionVars.initial,
      control := RegionVars.initial }

/-- Embeds `TopLevelTask::createTelemetryLogicalRegion`. -/
def createTelemetryLogicalRegion (t : TopLevelTask) (rt : Runtime) (numEntities : Nat) :
    Except Failure (TopLevelTask × Runtime) := do
  let (v, rt) ← createLogicalRegionWithPartition rt "telemetry" numEntities
    createTelemetryFieldSpace t.telemetry
  return ({ t with telemetry := v }, rt)

/-- Embeds `TopLevelTask::createResultLogicalRegion`. -/
def createResultLogicalRegion (t : TopLevelTask) (rt : Runtime) (numEntities : Nat) :
    Except Failure (TopLevelTask × Runtime) := do
  let (v, rt) ← createLogicalRegionWithPartition rt "result" numEntities
    createResultFieldSpace t.result
  return ({ t with result := v }, rt)

/-- Embeds `TopLevelTask::createControlLogicalRegion`. -/
def createControlLogicalRegion (t : TopLevelTask) (rt : Runtime) (numEntities : Nat) :
    Except Failure (TopLevelTask × Runtime) := do
  let (v, rt) ← createLogicalRegionWithPartition rt "control" numEntities
    createControlFieldSpace t.control
  return ({ t with control := v }, rt)

/-- The `numEntities` computed by `TopLevelTask::createLogicalRegions`, in
unsigned arithmetic. -/
def numEntitiesOf (t : TopLevelTask) : Nat :=
  uadd (uadd (uadd t.mNumWorkers t.mNumGraphManagers) t.mNumRobustnessMonitors) MAX_CLIENTS

/-- Embeds `TopLevelTask::createLogicalRegions`. -/
def createLogicalRegions (t : TopLevelTask) (rt : Runtime) :
    Except Failure (TopLevelTask × Runtime) := do
  let numEntities := numEntitiesOf t
  let (t, rt) ← createTelemetryLogicalRegion t rt numEntities
  let (t, rt) ← createResultLogicalRegion t rt numEntities
  let (t, rt) ← createControlLogicalRegion t rt numEntities
  return (t, rt)

/-- Embeds `TopLevelTask::launchTelemetryProcessingTasks`. -/
def launchTelemetryProcessingTasks (t : TopLevelTask) (rt : Runtime) : Runtime :=
  let launchBounds : Rect1 := ⟨0, usub t.mNumWorkers 1⟩
  let argMap := ArgumentMap.empty
  let dataSourceLauncher : IndexTaskLauncher := ⟨t.mDataSource, launchBounds, 0, argMap⟩
  let (dataSourceFutureMap, rt) := rt.execute_index_space dataSourceLauncher
  let workerArgMap := ArgumentMap.ofFutureMap dataSourceFutureMap
  let workerLauncher : IndexTaskLauncher := ⟨.WORKER_TASK, launchBounds, 0, workerArgMap⟩
  let (workerFutureMap, rt) := rt.execute_index_space workerLauncher
  let collectorArgMap := ArgumentMap.ofFutureMap workerFutureMap
  let collectorLauncher : IndexTaskLauncher := ⟨.COLLECTOR_TASK, launchBounds, 0, collectorArgMap⟩
  let (_, rt) := rt.execute_index_space collectorLauncher
  rt

/-- Embeds `TopLevelTask::launchGraphManagerTask`. -/
def launchGraphManagerTask (t : TopLevelTask) (rt : Runtime) : Runtime :=
  let launchBounds : Rect1 := ⟨0, usub t.mNumGraphManagers 1⟩
  let argMap := ArgumentMap.empty
  let graphManagerLauncher : IndexTaskLauncher := ⟨.GRAPH_MANAGER_TASK, launchBounds, 0, argMap⟩
  let (_, rt) := rt.execute_index_space graphManagerLauncher
  rt

/-- Embeds `TopLevelTask::timeToMonitor`. -/
def timeToMonitor : Bool := true

/-- Embeds `TopLevelTask::timeToPersist`. -/
def timeToPersist : Bool := true

/-- Embeds `TopLevelTask::launchRobustnessMonitorTask`. -/
def launchRobustnessMonitorTask (t : TopLevelTask) (rt : Runtime) : Runtime :=
  let launchBounds : Rect1 := ⟨0, usub t.mNumRobustnessMonitors 1⟩
  let argMap := ArgumentMap.empty
  let robustnessMonitorLauncher : IndexTaskLauncher :=
    ⟨.ROBUSTNESS_MONITOR_TASK, launchBounds, 0, argMap⟩
  let (_, rt) := rt.execute_index_space robustnessMonitorLauncher
  rt

/-- Embeds `TopLevelTask::maybeOpenFileDataSource`. -/
def maybeOpenFileDataSource (t : TopLevelTask) : TopLevelTask :=
  match t.mFilePathBase with
  | some base => { t with mFileDataSource := t.mFileDataSource.selectFileDataSource base }
  | none => t

/-! ### Snapshot / persist (`toplevel.cc`, lines 242-287) -/

/-- Overwrite column `f` of region `r` with the column `col`. -/
def writeColumn (d : LogicalRegion → Cells) (r : LogicalRegion) (f : FieldID)
    (col : Point2 → Int) : LogicalRegion → Cells :=
  fun r' f' => if r' = r ∧ f' = f then col else d r' f'

/-- Modelled from the spec: the scheduler primitive `bindExternalResource(table,
path, mode) → handle` (Legion's `attach_external_resource`, whose code is not
part of this repository).  The call is recorded, a fresh handle is returned and
remembered with its launcher, and in create mode the named store is created
holding the launcher's columns, with no cell written yet (all zero). -/
def Runtime.attach_external_resource (rt : Runtime) (l : AttachLauncher) :
    PhysicalRegion × Runtime :=
  let (n, rt) := rt.fresh
  let rt := rt.log (.attach_external_resource l ⟨n⟩)
  (⟨n⟩, { rt with
    attached := (⟨n⟩, l) :: rt.attached,
    files := fun nm =>
      if nm = l.file_name ∧ l.mode = .LEGION_FILE_CREATE then some ⟨l.file_fields, fun _ _ => 0⟩
      else rt.files nm })

/-- Modelled from the spec: one source/destination requirement pair of
`copyColumns(list of (srcCol, dstCol))`.  The fields of the two requirements are
paired by position and each destination column receives, at every row, the
value of its source column. -/
def copyRequirementPair (d : LogicalRegion → Cells) (src dst : RegionRequirement) :
    LogicalRegion → Cells :=
  (src.privilege_fields.zip dst.privilege_fields).foldl
    (fun d sd => writeColumn d dst.region sd.2 (d src.region sd.1)) d

/-- Modelled from the spec: the scheduler primitive `copyColumns` (Legion's
`issue_copy_operation`, whose code is not part of this repository).  The call is
recorded and the requirement pairs are carried out in list order. -/
def Runtime.issue_copy_operation (rt : Runtime) (l : CopyLauncher) : Runtime :=
  let rt := rt.log (.issue_copy_operation l)
  { rt with
    data := (l.src_requirements.zip l.dst_requirements).foldl
      (fun d sd => copyRequirementPair d sd.1 sd.2) rt.data }

/-- The launcher a live handle was bound with. -/
def lookupAttached (h : PhysicalRegion) :
    List (PhysicalRegion × AttachLauncher) → Option AttachLauncher
  | [] => none
  | (h', l) :: rest => if h' = h then some l else lookupAttached h rest

/-- Modelled from the spec: the scheduler primitive
`unbindExternalResource(handle)` (Legion's `detach_external_resource`, whose
code is not part of this repository).  The call is recorded; for a live handle
the bound columns of the region are flushed to the named store, which from then
on holds that snapshot, and the binding ends. -/
def Runtime.detach_external_resource (rt : Runtime) (h : PhysicalRegion) : Runtime :=
  let rt := rt.log (.detach_external_resource h)
  match lookupAttached h rt.attached with
  | none => rt
  | some l =>
    { rt with
      attached := rt.attached.filter (fun b => b.1 ≠ h),
      files := fun nm =>
        if nm = l.file_name then
          some ⟨l.file_fields, fun f p => if f ∈ l.file_fields then rt.data l.handle f p else 0⟩
        else rt.files nm }

/-- The `for` loop of `TopLevelTask::persistLogicalRegion` (lines 253-260): it
runs until `shadowIt` reaches the end of `shadowFields` and dereferences
`persistentIt` in step, without checking it against `persistentFields.end()`. -/
def addCopyRequirementsLoop (region : LogicalRegion) :
    List FieldID → List FieldID → CopyLauncher → Except Failure CopyLauncher
  | [], _, copyLauncher => .ok copyLauncher
  | _ :: _, [], _ => .error .pastTheEnd
  | shadow :: shadowIt, persistent :: persistentIt, copyLauncher =>
    addCopyRequirementsLoop region shadowIt persistentIt
      (copyLauncher.add_copy_requirements
        (RegionRequirement.add_field ⟨region, .READ_ONLY, .EXCLUSIVE, region, []⟩ persistent)
        (RegionRequirement.add_field ⟨region, .READ_WRITE, .EXCLUSIVE, region, []⟩ shadow))

/-- Embeds `TopLevelTask::persistLogicalRegion`. -/
def persistLogicalRegion (rt : Runtime) (region : LogicalRegion) (name : String)
    (persistentFields shadowFields : List FieldID) : Except Failure Runtime := do
  let attachLauncher : AttachLauncher :=
    ⟨.EXTERNAL_POSIX_FILE, region, region, "", [], .LEGION_FILE_READ_ONLY⟩
  let attachLauncher := attachLauncher.attach_file name shadowFields .LEGION_FILE_CREATE
  let (physicalRegion, rt) := rt.attach_external_resource attachLauncher
  let copyLauncher ← addCopyRequirementsLoop region shadowFields persistentFields ⟨[], []⟩
  let rt := rt.issue_copy_operation copyLauncher
  return rt.detach_external_resource physicalRegion

/-- Embeds `TopLevelTask::persistTelemetryRegion`. -/
def persistTelemetryRegion (t : TopLevelTask) (rt : Runtime) : Except Failure Runtime :=
  persistLogicalRegion rt t.telemetry.region "telemetry"
    t.telemetry.regionPersistentFields t.telemetry.regionShadowFields

/-- Embeds `TopLevelTask::persistResultRegion`. -/
def persistResultRegion (t : TopLevelTask) (rt : Runtime) : Except Failure Runtime :=
  persistLogicalRegion rt t.result.region "result"
    t.result.regionPersistentFields t.result.regionShadowFields

/-- Embeds `TopLevelTask::persistControlRegion`. -/
def persistControlRegion (t : TopLevelTask) (rt : Runtime) : Except Failure Runtime :=
  persistLogicalRegion rt t.control.region "control"
    t.control.regionPersistentFields t.control.regionShadowFields

/-- Embeds `TopLevelTask::persistLogicalRegions`. -/
def persistLogicalRegions (t : TopLevelTask) (rt : Runtime) : Except Failure Runtime := do
  let rt ← persistTelemetryRegion t rt
  let rt ← persistResultRegion t rt
  persistControlRegion t rt

/-! ### The orchestration loop (`toplevel.cc`, lines 290-312) -/

/-- One pass through the body of the `do { ... } while(true)` loop of
`TopLevelTask::top_level_task`. -/
def loopBody (t : TopLevelTask) (rt : Runtime) : Except Failure Runtime := do
  let rt := launchTelemetryProcessingTasks t rt
  let rt := launchGraphManagerTask t rt
  let rt := if timeToMonitor then launchRobustnessMonitorTask t rt else rt
  if timeToPersist then persistLogicalRegions t rt else return rt

/-- The first `iterations` passes of the loop, which itself never ends. -/
def runLoop : Nat → TopLevelTask → Runtime → Except Failure Runtime
  | 0, _, rt => .ok rt
  | n + 1, t, rt => do
    let rt ← loopBody t rt
    runLoop n t rt

/-- The part of `TopLevelTask::top_level_task` that precedes the loop. -/
def bootstrap (t : TopLevelTask) (rt : Runtime) : Except Failure (TopLevelTask × Runtime) := do
  let (t, rt) ← createLogicalRegions t rt
  let t := maybeOpenFileDataSource t
  return (t, rt)

/-- Embeds `TopLevelTask::top_level_task`, observed after `iterations` passes
of its endless loop. -/
def top_level_task (iterations : Nat) (t : TopLevelTask) (rt : Runtime) :
    Except Failure (TopLevelTask × Runtime) := do
  let (t, rt) ← bootstrap t rt
  let rt ← runLoop iterations t rt
  return (t, rt)

/-! ## String serialization (`string_serdez.hpp`) -/

/-- A C `char`: one byte.  The byte 0 is the terminator NUL. -/
abbrev CChar := Fin 256

/-- The contents of a `std::string`: any bytes, NUL included. -/
abbrev CxxString := List CChar

/-- `std::string::c_str()`: the characters of the string followed by one NUL. -/
def CxxString.c_str (val : CxxString) : List CChar := val ++ [0]

/-- `memcpy(dest, src, n)` on arrays of known extent: the first `n` bytes of
`dest` are overwritten with the first `n` bytes of `src`; an access past the end
of either array is undefined behaviour (`none`). -/
def memcpy (dest src : List CChar) (n : Nat) : Option (List CChar) :=
  if n ≤ dest.length ∧ n ≤ src.length then some (src.take n ++ dest.drop n) else none

/-- `std::string(const char*)`: the characters before the first NUL; a buffer
without NUL is read past its end, which is undefined behaviour (`none`). -/
def CxxString.ofCStr : List CChar → Option CxxString
  | [] => none
  | c :: rest => if c = 0 then some [] else (CxxString.ofCStr rest).map (fun val => c :: val)

/-- Embeds `StringSerdez::serialized_size`; `val` is the string pointed to. -/
def StringSerdez.serialized_size (val : CxxString) : Nat :=
  val.length + 1

/-- Embeds `StringSerdez::serialize`: the buffer after the call and the
returned count. -/
def StringSerdez.serialize (val : CxxString) (buffer : List CChar) :
    Option (List CChar × Nat) :=
  match memcpy buffer val.c_str (val.length + 1) with
  | some buffer => some (buffer, val.length + 1)
  | none => none

/-- Embeds `StringSerdez::deserialize`: the newly allocated string and the
returned count. -/
def StringSerdez.deserialize (buffer : List CChar) : Option (CxxString × Nat) :=
  match CxxString.ofCStr buffer with
  | some val => some (val, val.length + 1)
  | none => none

/-! ## Vocabulary of the statements -/

/-- An example runtime: the allocator returns the id it is asked for, handles
start at 1, nothing has been called, every cell holds `100 * column + row`. -/
def Runtime.sample : Runtime :=
  { allocator := fun _ f => f,
    nextId := 1,
    trace := [],
    data := fun _ f p => 100 * (f : Int) + p.x,
    attached := [],
    files := fun _ => none }

/-- The fan-out call of stage `task` over rows `0 .. count - 1` with per-row
inputs `args`, answered with the future map `fm`. -/
def fanOut (task : TaskIdEnum) (count : Nat) (args : ArgumentMap) (fm : FutureMap) : Operation :=
  .execute_index_space ⟨task, ⟨0, (count : Int) - 1⟩, 0, args⟩ fm

/-- Source requirement of the copy for one persistent column. -/
def copySource (region : LogicalRegion) (f : FieldID) : RegionRequirement :=
  ⟨region, .READ_ONLY, .EXCLUSIVE, region, [f]⟩

/-- Destination requirement of the copy for one shadow column. -/
def copyDestination (region : LogicalRegion) (f : FieldID) : RegionRequirement :=
  ⟨region, .READ_WRITE, .EXCLUSIVE, region, [f]⟩

/-- The three calls of one persist: bind the shadow columns to the store `name`
in create mode, one batched copy with one requirement pair per column pair, and
unbind the handle `h` the bind returned. -/
def persistCalls (region : LogicalRegion) (name : String)
    (persistentFields shadowFields : List FieldID) (h : PhysicalRegion) : List Operation :=
  [ .attach_external_resource
      ⟨.EXTERNAL_POSIX_FILE, region, region, name, shadowFields, .LEGION_FILE_CREATE⟩ h,
    .issue_copy_operation
      ⟨persistentFields.map (copySource region), shadowFields.map (copyDestination region)⟩,
    .detach_external_resource h ]

/-- Calls that create a table. -/
def Operation.createsTable : Operation → Bool
  | .create_logical_region _ _ _ => true
  | _ => false

/-- The calls `createLogicalRegionWithPartition` makes for a table of the given
kind and name when the runtime's next fresh handle is `k` and the allocator
returns the ids it is asked for. -/
def tableCreationCalls (kind : TableKind) (name : String) (numEntities k : Nat) :
    List Operation :=
  [ .create_index_space
      ⟨⟨0, 0⟩, ⟨usub numEntities 1, usub MAX_INDEX_POINTS_PER_ENTITY 1⟩⟩ ⟨k⟩,
    .attach_name_index_space ⟨k⟩ (name ++ "IndexSpace"),
    .create_field_space ⟨k + 1⟩,
    .create_field_allocator ⟨k + 1⟩,
    .allocate_field ⟨k + 1⟩ sizeof_int kind.timestamp kind.timestamp,
    .allocate_field ⟨k + 1⟩ sizeof_int kind.timestamp_shadow kind.timestamp_shadow,
    .allocate_field ⟨k + 1⟩ sizeof_int kind.data kind.data,
    .allocate_field ⟨k + 1⟩ sizeof_int kind.data_shadow kind.data_shadow,
    .attach_name_field_space ⟨k + 1⟩ (name ++ "FieldSpace"),
    .create_logical_region ⟨k⟩ ⟨k + 1⟩ ⟨k + 2, ⟨k⟩, ⟨k + 1⟩⟩,
    .attach_name_region ⟨k + 2, ⟨k⟩, ⟨k + 1⟩⟩ name ]

/-- The members of a table after `createLogicalRegionWithPartition` has run on
`v` with next fresh handle `k`: index space `k`, field space `k + 1`, region
`k + 2`, the partition member as it was, and the four columns appended. -/
def tableVars (kind : TableKind) (v : RegionVars) (k : Nat) : RegionVars :=
  { regionIndexSpace := ⟨k⟩,
    regionFieldSpace := ⟨k + 1⟩,
    region := ⟨k + 2, ⟨k⟩, ⟨k + 1⟩⟩,
    regionPartition := v.regionPartition,
    regionPersistentFields := v.regionPersistentFields ++ [kind.timestamp, kind.data],
    regionShadowFields := v.regionShadowFields ++ [kind.timestamp_shadow, kind.data_shadow] }

/-- A configuration whose population counts overflow `unsigned` when summed. -/
def TopLevelTask.crowded : TopLevelTask :=
  { TopLevelTask.construct (fun _ => none) with mNumWorkers := 4294967295 }

/-- The launcher `persistLogicalRegion` binds the store `name` with. -/
def persistAttachLauncher (region : LogicalRegion) (name : String)
    (shadowFields : List FieldID) : AttachLauncher :=
  ⟨.EXTERNAL_POSIX_FILE, region, region, name, shadowFields, .LEGION_FILE_CREATE⟩

/-- Region contents after the batched copy of `persistLogicalRegion`. -/
def copiedData (d : LogicalRegion → Cells) (region : LogicalRegion)
    (persistentFields shadowFields : List FieldID) : LogicalRegion → Cells :=
  ((persistentFields.map (copySource region)).zip
    (shadowFields.map (copyDestination region))).foldl
      (fun d sd => copyRequirementPair d sd.1 sd.2) d

/-- The runtime `persistLogicalRegion` leaves behind when it returns. -/
def persistedRuntime (rt : Runtime) (region : LogicalRegion) (name : String)
    (persistentFields shadowFields : List FieldID) : Runtime :=
  { allocator := rt.allocator,
    nextId := rt.nextId + 1,
    trace := rt.trace ++ persistCalls region name persistentFields shadowFields ⟨rt.nextId⟩,
    data := copiedData rt.data region persistentFields shadowFields,
    attached := rt.attached.filter (fun b => b.1 ≠ ⟨rt.nextId⟩),
    files := fun nm =>
      if nm = name then
        some ⟨shadowFields, fun f p =>
          if f ∈ shadowFields then
            copiedData rt.data region persistentFields shadowFields region f p
          else 0⟩
      else rt.files nm }

/-- Number of fresh handles one pass of the loop takes: four fan-outs, one more
when the monitor runs, three binds when the tables are persisted. -/
def handlesPerIteration : Nat :=
  4 + (if timeToMonitor then 1 else 0) + (if timeToPersist then 3 else 0)

/-- The calls of one pass of the orchestration loop, in the order of the
specification, when the next fresh handle is `k`: the telemetry chain (data
source, worker, collector), the graph-manager fan-out without per-row input, the
robustness-monitor fan-out if `timeToMonitor` holds, and, if `timeToPersist`
holds, the persist of the telemetry, result and control tables under the store
names "telemetry", "result" and "control". -/
def iterationCalls (t : TopLevelTask) (k : Nat) : List Operation :=
  [ fanOut t.mDataSource t.mNumWorkers .empty ⟨k⟩,
    fanOut .WORKER_TASK t.mNumWorkers (.ofFutureMap ⟨k⟩) ⟨k + 1⟩,
    fanOut .COLLECTOR_TASK t.mNumWorkers (.ofFutureMap ⟨k + 1⟩) ⟨k + 2⟩,
    fanOut .GRAPH_MANAGER_TASK t.mNumGraphManagers .empty ⟨k + 3⟩ ] ++
  (if timeToMonitor then
    [fanOut .ROBUSTNESS_MONITOR_TASK t.mNumRobustnessMonitors .empty ⟨k + 4⟩]
   else []) ++
  (if timeToPersist then
    persistCalls t.telemetry.region "telemetry" t.telemetry.regionPersistentFields
      t.telemetry.regionShadowFields ⟨k + 4 + (if timeToMonitor then 1 else 0)⟩ ++
    persistCalls t.result.region "result" t.result.regionPersistentFields
      t.result.regionShadowFields ⟨k + 5 + (if timeToMonitor then 1 else 0)⟩ ++
    persistCalls t.control.region "control" t.control.regionPersistentFields
      t.control.regionShadowFields ⟨k + 6 + (if timeToMonitor then 1 else 0)⟩
   else [])

/-- The calls of `n` successive passes of the loop, the first starting with
fresh handle `k`. -/
def loopCalls (t : TopLevelTask) : Nat → Nat → List Operation
  | 0, _ => []
  | n + 1, k => iterationCalls t k ++ loopCalls t n (k + handlesPerIteration)

/-- The population counts are unsigned 32-bit values and at least one. -/
def TopLevelTask.populated (t : TopLevelTask) : Prop :=
  (1 ≤ t.mNumWorkers ∧ t.mNumWorkers < UNSIGNED_MOD) ∧
  (1 ≤ t.mNumGraphManagers ∧ t.mNumGraphManagers < UNSIGNED_MOD) ∧
  (1 ≤ t.mNumRobustnessMonitors ∧ t.mNumRobustnessMonitors < UNSIGNED_MOD)

/-- Every table has as many persistent as shadow columns. -/
def TopLevelTask.paired (t : TopLevelTask) : Prop :=
  t.telemetry.regionPersistentFields.length = t.telemetry.regionShadowFields.length ∧
  t.result.regionPersistentFields.length = t.result.regionShadowFields.length ∧
  t.control.regionPersistentFields.length = t.control.regionShadowFields.length

/-- A process environment in which only `AMI2_FILE_PATH_BASE` is set, to
"/tmp/run1". -/
def getenvRun1 : String → Option String :=
  fun key => if key = "AMI2_FILE_PATH_BASE" then some "/tmp/run1" else none

/-- A file system in which no file can be opened. -/
def FileWorld.nothingReadable : FileWorld :=
  { readable := fun _ => false, openAttempts := [], framesWritten := 0 }

/-- A file system in which every file can be opened. -/
def FileWorld.allReadable : FileWorld :=
  { readable := fun _ => true, openAttempts := [], framesWritten := 0 }

/-- The four columns of a table kind in allocation order. -/
def TableKind.columns (kind : TableKind) : List FieldID :=
  [kind.timestamp, kind.timestamp_shadow, kind.data, kind.data_shadow]

/-- The persistent columns of a table kind. -/
def TableKind.persistentColumns (kind : TableKind) : List FieldID :=
  [kind.timestamp, kind.data]

/-- The shadow columns of a table kind. -/
def TableKind.shadowColumns (kind : TableKind) : List FieldID :=
  [kind.timestamp_shadow, kind.data_shadow]

/-- A runtime whose allocator hands back 99 for the requested id `bad` and the
requested id for every other request. -/
def Runtime.drifting (bad : FieldID) : Runtime :=
  { Runtime.sample with allocator := fun _ f => if f = bad then 99 else f }

/-! ## Auxiliary lemmas -/

theorem usub_one (n : Nat) (h1 : 1 ≤ n) (h2 : n < UNSIGNED_MOD) : usub n 1 = n - 1 := by
  unfold usub
  unfold UNSIGNED_MOD at *
  norm_num at *
  omega

theorem extent_zero (n : Nat) (h1 : 1 ≤ n) : extent 0 ((n : Int) - 1) = n := by
  unfold extent
  omega

/-- With an allocator that returns the requested ids, the table creator returns
normally; its outputs and the runtime it leaves are these. -/
theorem createLogicalRegionWithPartition_ok (kind : TableKind) (rt : Runtime) (name : String)
    (numEntities : Nat) (v : RegionVars) (hAlloc : ∀ size f, rt.allocator size f = f) :
    createLogicalRegionWithPartition rt name numEntities kind.builder v =
      .ok (tableVars kind v rt.nextId,
           { rt with
             nextId := rt.nextId + 3,
             trace := rt.trace ++ tableCreationCalls kind name numEntities rt.nextId }) := by
  cases kind <;>
  · simp only [createLogicalRegionWithPartition, TableKind.builder, createTelemetryFieldSpace,
      createResultFieldSpace, createControlFieldSpace, Runtime.create_field_space,
      Runtime.create_field_allocator, Runtime.create_index_space, Runtime.create_logical_region,
      Runtime.attach_name_index_space, Runtime.attach_name_field_space,
      Runtime.attach_name_region, FieldAllocator.allocate_field, Runtime.log, Runtime.fresh,
      hAlloc, bind, Except.bind, pure, Except.pure, ne_eq, not_true_eq_false, ite_false,
      List.nil_append, List.append_assoc, List.cons_append, tableCreationCalls, tableVars,
      TableKind.timestamp, TableKind.timestamp_shadow, TableKind.data, TableKind.data_shadow]

/-- With an allocator that returns the requested ids, `createLogicalRegions`
returns normally, having created the three tables one after the other. -/
theorem createLogicalRegions_ok (t : TopLevelTask) (rt : Runtime)
    (hAlloc : ∀ size f, rt.allocator size f = f) :
    createLogicalRegions t rt =
      .ok ({ t with
             telemetry := tableVars .telemetry t.telemetry rt.nextId,
             result := tableVars .result t.result (rt.nextId + 3),
             control := tableVars .control t.control (rt.nextId + 6) },
           { rt with
             nextId := rt.nextId + 9,
             trace := rt.trace ++
               (tableCreationCalls .telemetry "telemetry" (numEntitiesOf t) rt.nextId ++
                tableCreationCalls .result "result" (numEntitiesOf t) (rt.nextId + 3) ++
                tableCreationCalls .control "control" (numEntitiesOf t) (rt.nextId + 6)) }) := by
  simp only [createLogicalRegions, createTelemetryLogicalRegion, createResultLogicalRegion,
    createControlLogicalRegion, createLogicalRegionWithPartition, createTelemetryFieldSpace,
    createResultFieldSpace, createControlFieldSpace, Runtime.create_field_space,
    Runtime.create_field_allocator, Runtime.create_index_space, Runtime.create_logical_region,
    Runtime.attach_name_index_space, Runtime.attach_name_field_space,
    Runtime.attach_name_region, FieldAllocator.allocate_field, Runtime.log, Runtime.fresh,
    hAlloc, bind, Except.bind, pure, Except.pure, ne_eq, not_true_eq_false, ite_false,
    List.nil_append, List.append_assoc, List.cons_append, tableCreationCalls, tableVars,
    TableKind.timestamp, TableKind.timestamp_shadow, TableKind.data, TableKind.data_shadow,
    Nat.add_assoc, Nat.reduceAdd]

/-- On lists of equal length the loop of `persistLogicalRegion` ends normally
and has added one requirement pair per column pair, in list order. -/
theorem addCopyRequirementsLoop_ok (region : LogicalRegion) :
    ∀ (shadowFields persistentFields : List FieldID) (acc : CopyLauncher),
      persistentFields.length = shadowFields.length →
      addCopyRequirementsLoop region shadowFields persistentFields acc =
        .ok ⟨acc.src_requirements ++ persistentFields.map (copySource region),
             acc.dst_requirements ++ shadowFields.map (copyDestination region)⟩
  | [], [], acc, _ => by simp [addCopyRequirementsLoop]
  | [], _ :: _, _, h => by simp at h
  | _ :: _, [], _, h => by simp at h
  | sf :: ss, pf :: ps, acc, h => by
    rw [addCopyRequirementsLoop, addCopyRequirementsLoop_ok region ss ps _ (by simpa using h)]
    simp [CopyLauncher.add_copy_requirements, RegionRequirement.add_field, copySource,
      copyDestination]

/-- On lists of equal length `persistLogicalRegion` returns normally. -/
theorem persistLogicalRegion_ok (rt : Runtime) (region : LogicalRegion) (name : String)
    (persistentFields shadowFields : List FieldID)
    (hlen : persistentFields.length = shadowFields.length) :
    persistLogicalRegion rt region name persistentFields shadowFields =
      .ok (persistedRuntime rt region name persistentFields shadowFields) := by
  simp only [persistLogicalRegion, addCopyRequirementsLoop_ok region _ _ _ hlen, bind,
    Except.bind, pure, Except.pure, AttachLauncher.attach_file,
    Runtime.attach_external_resource, Runtime.issue_copy_operation,
    Runtime.detach_external_resource, Runtime.fresh, Runtime.log, lookupAttached,
    persistedRuntime, persistCalls, copiedData, List.nil_append, List.append_assoc,
    List.cons_append, if_true, and_true]
  congr 2
  · simp
  · funext nm
    by_cases h : nm = name <;> simp [h]

theorem copiedData_cons (d : LogicalRegion → Cells) (region : LogicalRegion)
    (a b : FieldID) (ps ss : List FieldID) :
    copiedData d region (a :: ps) (b :: ss) =
      copiedData (writeColumn d region b (d region a)) region ps ss := by
  simp [copiedData, copyRequirementPair, copySource, copyDestination]

/-- The batched copy leaves every other region and every column outside the
destination list as it was. -/
theorem copiedData_frame (region : LogicalRegion) :
    ∀ (ps ss : List FieldID) (d : LogicalRegion → Cells) (r : LogicalRegion) (f : FieldID),
      (r ≠ region ∨ f ∉ ss) → copiedData d region ps ss r f = d r f
  | [], _, _, _, _, _ => by simp [copiedData]
  | _ :: _, [], _, _, _, _ => by simp [copiedData]
  | a :: ps, b :: ss, d, r, f, h => by
    rw [copiedData_cons, copiedData_frame region ps ss _ r f]
    · have hne : ¬ (r = region ∧ f = b) := by
        rintro ⟨hr, hf⟩
        rcases h with h | h
        · exact h hr
        · exact h (by simp [hf])
      simp [writeColumn, hne]
    · rcases h with h | h
      · exact Or.inl h
      · exact Or.inr (fun hm => h (List.mem_cons_of_mem _ hm))

/-- When the destination columns are pairwise distinct and none of them is a
source column, the batched copy puts into destination column `i` the old
contents of source column `i`. -/
theorem copiedData_paired (region : LogicalRegion) :
    ∀ (ps ss : List FieldID) (d : LogicalRegion → Cells), ss.Nodup → (∀ x ∈ ps, x ∉ ss) →
      ∀ (i : Nat) (a b : FieldID), ps[i]? = some a → ss[i]? = some b →
        copiedData d region ps ss region b = d region a
  | [], _, _, _, _, i, _, _, ha, _ => by simp at ha
  | _ :: _, [], _, _, _, i, _, _, _, hb => by simp at hb
  | a0 :: ps, b0 :: ss, d, hnd, hdisj, 0, a, b, ha, hb => by
    simp only [List.getElem?_cons_zero, Option.some.injEq] at ha hb
    subst ha
    subst hb
    rw [copiedData_cons, copiedData_frame region ps ss _ _ _ (Or.inr (List.nodup_cons.mp hnd).1)]
    simp [writeColumn]
  | a0 :: ps, b0 :: ss, d, hnd, hdisj, i + 1, a, b, ha, hb => by
    simp only [List.getElem?_cons_succ] at ha hb
    have hmem : a ∈ ps := List.getElem?_mem ha
    have hab : a ≠ b0 := fun h =>
      hdisj a (List.mem_cons_of_mem _ hmem) (by simp [h])
    rw [copiedData_cons, copiedData_paired region ps ss _ (List.nodup_cons.mp hnd).2
      (fun x hx hs => hdisj x (List.mem_cons_of_mem _ hx) (List.mem_cons_of_mem _ hs))
      i a b ha hb]
    simp [writeColumn, hab]

/-- A field-space builder that returns has appended its two persistent columns
and its two shadow columns to the lists it was given. -/
theorem builder_fields (kind : TableKind) (rt : Runtime) (fs : FieldSpace)
    (ps ss : List FieldID) (v : FieldSpaceVars) (h : kind.builder rt fs ps ss = .ok v) :
    v.persistentFields = ps ++ [kind.timestamp, kind.data] ∧
    v.shadowFields = ss ++ [kind.timestamp_shadow, kind.data_shadow] := by
  cases kind <;>
  · simp only [TableKind.builder, createTelemetryFieldSpace, createResultFieldSpace,
      createControlFieldSpace, Runtime.create_field_space, Runtime.create_field_allocator,
      FieldAllocator.allocate_field, Runtime.log, Runtime.fresh, bind, Except.bind,
      pure, Except.pure, throw, throwThe, MonadExceptOf.throw] at h
    split_ifs at h
    cases h
    simp [TableKind.timestamp, TableKind.timestamp_shadow, TableKind.data,
      TableKind.data_shadow]

/-- The telemetry builder on the sample runtime returns its four columns. -/
theorem telemetryBuilder_sample :
    ∃ v, createTelemetryFieldSpace Runtime.sample ⟨0⟩ [] [] = .ok v ∧
      v.fieldSpace = ⟨1⟩ ∧ v.persistentFields = [0, 2] ∧ v.shadowFields = [1, 3] ∧
      v.rt.nextId = 2 ∧ v.rt.trace.length = 6 :=
  ⟨_, rfl, rfl, rfl, rfl, rfl, rfl⟩

theorem usub_one_cast (n : Nat) (h : 1 ≤ n ∧ n < UNSIGNED_MOD) :
    ((usub n 1 : Nat) : Int) = (n : Int) - 1 := by
  rw [usub_one _ h.1 h.2]
  omega

/-- The three fan-out calls of the telemetry chain. -/
theorem launchTelemetryProcessingTasks_trace (t : TopLevelTask) (rt : Runtime)
    (h : 1 ≤ t.mNumWorkers ∧ t.mNumWorkers < UNSIGNED_MOD) :
    (launchTelemetryProcessingTasks t rt).trace = rt.trace ++
      [ fanOut t.mDataSource t.mNumWorkers .empty ⟨rt.nextId⟩,
        fanOut .WORKER_TASK t.mNumWorkers (.ofFutureMap ⟨rt.nextId⟩) ⟨rt.nextId + 1⟩,
        fanOut .COLLECTOR_TASK t.mNumWorkers (.ofFutureMap ⟨rt.nextId + 1⟩) ⟨rt.nextId + 2⟩ ] := by
  simp only [launchTelemetryProcessingTasks, Runtime.execute_index_space, Runtime.fresh,
    Runtime.log, fanOut, usub_one_cast _ h, List.append_assoc, List.cons_append,
    List.nil_append]

/-- One pass of the loop returns, takes `handlesPerIteration` handles and adds
exactly `iterationCalls` to the trace. -/
theorem loopBody_ok (t : TopLevelTask) (rt : Runtime) (hpop : t.populated) (hpair : t.paired) :
    ∃ rt', loopBody t rt = .ok rt' ∧
      rt'.trace = rt.trace ++ iterationCalls t rt.nextId ∧
      rt'.nextId = rt.nextId + handlesPerIteration := by
  obtain ⟨hw, hg, hm⟩ := hpop
  obtain ⟨h1, h2, h3⟩ := hpair
  refine ⟨persistedRuntime (persistedRuntime (persistedRuntime
      (launchRobustnessMonitorTask t (launchGraphManagerTask t
        (launchTelemetryProcessingTasks t rt)))
      t.telemetry.region "telemetry" t.telemetry.regionPersistentFields
        t.telemetry.regionShadowFields)
      t.result.region "result" t.result.regionPersistentFields t.result.regionShadowFields)
      t.control.region "control" t.control.regionPersistentFields t.control.regionShadowFields,
    ?_, ?_, ?_⟩
  · simp only [loopBody, timeToMonitor, timeToPersist, persistLogicalRegions,
      persistTelemetryRegion, persistResultRegion, persistControlRegion,
      persistLogicalRegion_ok _ _ _ _ _ h1, persistLogicalRegion_ok _ _ _ _ _ h2,
      persistLogicalRegion_ok _ _ _ _ _ h3, bind, Except.bind, pure, Except.pure, if_true]
  · simp only [persistedRuntime, launchTelemetryProcessingTasks, launchGraphManagerTask,
      launchRobustnessMonitorTask, Runtime.execute_index_space, Runtime.fresh, Runtime.log,
      iterationCalls, timeToMonitor, timeToPersist, fanOut, usub_one_cast _ hw,
      usub_one_cast _ hg, usub_one_cast _ hm, if_true, List.append_assoc, List.cons_append,
      List.nil_append, Nat.add_assoc, Nat.reduceAdd]
  · simp only [persistedRuntime, launchTelemetryProcessingTasks, launchGraphManagerTask,
      launchRobustnessMonitorTask, Runtime.execute_index_space, Runtime.fresh, Runtime.log,
      handlesPerIteration, timeToMonitor, timeToPersist, if_true, Nat.add_assoc,
      Nat.reduceAdd]

/-- Any number of passes of the loop return, and the trace grows by `loopCalls`. -/
theorem runLoop_ok (t : TopLevelTask) (hpop : t.populated) (hpair : t.paired) :
    ∀ (n : Nat) (rt : Runtime), ∃ rt', runLoop n t rt = .ok rt' ∧
      rt'.trace = rt.trace ++ loopCalls t n rt.nextId
  | 0, rt => ⟨rt, rfl, by simp [loopCalls]⟩
  | n + 1, rt => by
    obtain ⟨rt1, hbody, htrace, hid⟩ := loopBody_ok t rt hpop hpair
    obtain ⟨rt2, hrest, htrace2⟩ := runLoop_ok t hpop hpair n rt1
    refine ⟨rt2, ?_, ?_⟩
    · simp only [runLoop, hbody, bind, Except.bind, hrest]
    · rw [htrace2, htrace, hid, loopCalls, List.append_assoc]

/-- No call of the loop creates a table. -/
theorem loopCalls_no_table (t : TopLevelTask) :
    ∀ (n k : Nat), ∀ op ∈ loopCalls t n k, op.createsTable = false
  | 0, _, op, h => by simp [loopCalls] at h
  | n + 1, k, op, h => by
    rw [loopCalls, List.mem_append] at h
    rcases h with h | h
    · simp only [iterationCalls, timeToMonitor, timeToPersist, persistCalls, fanOut, if_true,
        List.mem_append, List.mem_cons, List.mem_singleton, List.not_mem_nil, or_false] at h
      casesm* _ ∨ _ <;> (subst_vars; rfl)
    · exact loopCalls_no_table t n _ op h

/-- Selecting the file source changes no member but `mFileDataSource`. -/
theorem maybeOpenFileDataSource_eq (t : TopLevelTask) :
    maybeOpenFileDataSource t =
      { t with mFileDataSource :=
          match t.mFilePathBase with
          | some base => t.mFileDataSource.selectFileDataSource base
          | none => t.mFileDataSource } := by
  obtain ⟨_, _, _, _, base, _, _, _, _⟩ := t
  cases base <;> rfl

/-- With an allocator that returns the requested ids the part before the loop
returns: the three tables are created, then the file source is selected if a
path base is configured. -/
theorem bootstrap_ok (t : TopLevelTask) (rt : Runtime)
    (hAlloc : ∀ size f, rt.allocator size f = f) :
    bootstrap t rt =
      .ok (maybeOpenFileDataSource { t with
             telemetry := tableVars .telemetry t.telemetry rt.nextId,
             result := tableVars .result t.result (rt.nextId + 3),
             control := tableVars .control t.control (rt.nextId + 6) },
           { rt with
             nextId := rt.nextId + 9,
             trace := rt.trace ++
               (tableCreationCalls .telemetry "telemetry" (numEntitiesOf t) rt.nextId ++
                tableCreationCalls .result "result" (numEntitiesOf t) (rt.nextId + 3) ++
                tableCreationCalls .control "control" (numEntitiesOf t) (rt.nextId + 6)) }) := by
  simp only [bootstrap, createLogicalRegions_ok t rt hAlloc, bind, Except.bind, pure,
    Except.pure]

/-- A file data source that is neither selected nor opened does nothing when
its task runs, however often. -/
theorem FileDataSource.tasks_unselected (s : FileDataSource)
    (hs : s.mSelectedDataSource = false) (ho : s.mOpenedDataSource = false) :
    ∀ (n : Nat) (w : FileWorld), FileDataSource.tasks n s w = (s, w)
  | 0, _ => rfl
  | n + 1, w => by
    have hstep : s.task w = (s, w) := by
      simp [FileDataSource.task, FileDataSource.telemetryDataExists, hs, ho]
    rw [FileDataSource.tasks, hstep]
    exact FileDataSource.tasks_unselected s hs ho n w

/-- The task of a source already marked opened attempts no open and leaves
the source as it is. -/
theorem FileDataSource.task_opened (s : FileDataSource) (w : FileWorld)
    (ho : s.mOpenedDataSource = true) :
    s.task w = (s, FileDataSource.writeTelemetryDataToRegion w) := by
  simp [FileDataSource.task, FileDataSource.telemetryDataExists, ho]

/-- However often the task of a source marked opened runs, no open is attempted
and the source stays as it is. -/
theorem FileDataSource.tasks_opened (s : FileDataSource) (ho : s.mOpenedDataSource = true) :
    ∀ (n : Nat) (w : FileWorld),
      (FileDataSource.tasks n s w).1 = s ∧
      (FileDataSource.tasks n s w).2.openAttempts = w.openAttempts
  | 0, _ => ⟨rfl, rfl⟩
  | n + 1, w => by
    rw [FileDataSource.tasks, FileDataSource.task_opened s w ho]
    exact FileDataSource.tasks_opened s ho n _

/-- The first task of a selected, unopened source attempts to open the file
derived from the path base and marks the source opened, whether or not the open
succeeded. -/
theorem FileDataSource.task_selected (s : FileDataSource) (w : FileWorld)
    (hs : s.mSelectedDataSource = true) (ho : s.mOpenedDataSource = false) :
    (s.task w).1 = { s with
        mInputFile := s.mInputFile.open (w.readable (s.mFilePathBase ++ "_file.dat")),
        mOpenedDataSource := true } ∧
    (s.task w).2.openAttempts = w.openAttempts ++ [s.mFilePathBase ++ "_file.dat"] := by
  simp [FileDataSource.task, FileDataSource.telemetryDataExists,
    FileDataSource.openFileDataSource, FileDataSource.dataSourceFileName,
    FileDataSource.writeTelemetryDataToRegion, hs, ho]

/-- Reading a C string from the bytes of `val`, one NUL and anything after
gives the characters of `val` before its first NUL. -/
theorem CxxString.ofCStr_c_str (rest : List CChar) :
    ∀ val : CxxString,
      CxxString.ofCStr (val ++ [0] ++ rest) = some (val.takeWhile (fun c => c ≠ 0))
  | [] => by simp [CxxString.ofCStr]
  | c :: val => by
    by_cases hc : c = 0
    · simp [CxxString.ofCStr, hc]
    · have ih := CxxString.ofCStr_c_str rest val
      simpa [CxxString.ofCStr, hc] using ih

/-- What `serialize` does to a buffer that is large enough. -/
theorem StringSerdez.serialize_eq (val : CxxString) (buffer : List CChar)
    (hbuf : val.length + 1 ≤ buffer.length) :
    StringSerdez.serialize val buffer
      = some (val ++ [0] ++ buffer.drop (val.length + 1), val.length + 1) := by
  have hsrc : List.take (val.length + 1) (val ++ [0]) = val ++ [0] :=
    List.take_of_length_le (by simp)
  simp [StringSerdez.serialize, memcpy, CxxString.c_str, hbuf, hsrc]

/-! ## Theorems -/

/-- C1: run on empty persistent and shadow lists with an allocator that returns
the id it is asked for, the field-space builder of every table kind returns
normally, has allocated exactly the four columns timestamp, timestamp_shadow,
data, data_shadow in that order, and hands back persistent = [timestamp, data]
and shadow = [timestamp_shadow, data_shadow]; the two lists have the same length
and at every index the shadow entry is the shadow column of the persistent
entry. -/
theorem fieldSpace_builder_columns (kind : TableKind) (rt : Runtime) (fs0 : FieldSpace)
    (hAlloc : ∀ size f, rt.allocator size f = f) :
    ∃ v, kind.builder rt fs0 [] [] = .ok v ∧
      v.rt.trace = rt.trace ++
        [ .create_field_space ⟨rt.nextId⟩,
          .create_field_allocator ⟨rt.nextId⟩,
          .allocate_field ⟨rt.nextId⟩ sizeof_int kind.timestamp kind.timestamp,
          .allocate_field ⟨rt.nextId⟩ sizeof_int kind.timestamp_shadow kind.timestamp_shadow,
          .allocate_field ⟨rt.nextId⟩ sizeof_int kind.data kind.data,
          .allocate_field ⟨rt.nextId⟩ sizeof_int kind.data_shadow kind.data_shadow ] ∧
      v.persistentFields = [kind.timestamp, kind.data] ∧
      v.shadowFields = [kind.timestamp_shadow, kind.data_shadow] ∧
      v.persistentFields.length = v.shadowFields.length ∧
      ∀ i : Nat, v.shadowFields[i]? = (v.persistentFields[i]?).map shadowColumnOf := by
  cases kind <;>
  · simp only [TableKind.builder, createTelemetryFieldSpace, createResultFieldSpace,
      createControlFieldSpace, Runtime.create_field_space, Runtime.create_field_allocator,
      FieldAllocator.allocate_field, Runtime.log, Runtime.fresh, hAlloc, bind, Except.bind,
      pure, Except.pure, ne_eq, not_true_eq_false, ite_false, List.nil_append, List.append_assoc,
      List.cons_append]
    refine ⟨_, rfl, rfl, rfl, rfl, rfl, ?_⟩
    intro i
    rcases i with _ | _ | i <;> rfl

/-- C1 at a concrete input: the telemetry builder on the sample runtime. -/
theorem fieldSpace_builder_columns_witness :
    (∀ size f, Runtime.sample.allocator size f = f) ∧
    ∃ v, createTelemetryFieldSpace Runtime.sample ⟨0⟩ [] [] = .ok v ∧
      v.persistentFields = [0, 2] ∧ v.shadowFields = [1, 3] :=
  have ⟨v, h, _, hp, hs, _, _⟩ :=
    fieldSpace_builder_columns .telemetry Runtime.sample ⟨0⟩ (fun _ _ => rfl)
  ⟨fun _ _ => rfl, v, h, hp, hs⟩

/-- C5: for every worker count from 1 up (an unsigned 32-bit value),
launchTelemetryProcessingTasks makes exactly three fan-out calls, in the order
data-source stage, worker stage, collector stage, each over the rows
0 .. workerCount - 1; the data-source stage has no per-row input, row i of the
worker stage receives row i of the data-source result map, and row i of the
collector stage receives row i of the worker result map. -/
theorem launchTelemetryProcessingTasks_chain (t : TopLevelTask) (rt : Runtime)
    (h1 : 1 ≤ t.mNumWorkers) (h2 : t.mNumWorkers < UNSIGNED_MOD) :
    (launchTelemetryProcessingTasks t rt).trace = rt.trace ++
      [ fanOut t.mDataSource t.mNumWorkers .empty ⟨rt.nextId⟩,
        fanOut .WORKER_TASK t.mNumWorkers (.ofFutureMap ⟨rt.nextId⟩) ⟨rt.nextId + 1⟩,
        fanOut .COLLECTOR_TASK t.mNumWorkers (.ofFutureMap ⟨rt.nextId + 1⟩) ⟨rt.nextId + 2⟩ ] ∧
    Rect1.points ⟨0, (t.mNumWorkers : Int) - 1⟩ = (List.range t.mNumWorkers).map Int.ofNat ∧
    (∀ i : Int, ArgumentMap.empty.pointArgument i = none) ∧
    (∀ i : Int, (ArgumentMap.ofFutureMap ⟨rt.nextId⟩).pointArgument i
      = some ⟨⟨rt.nextId⟩, i⟩) ∧
    (∀ i : Int, (ArgumentMap.ofFutureMap ⟨rt.nextId + 1⟩).pointArgument i
      = some ⟨⟨rt.nextId + 1⟩, i⟩) := by
  refine ⟨launchTelemetryProcessingTasks_trace t rt ⟨h1, h2⟩, ?_, fun _ => rfl, fun _ => rfl,
    fun _ => rfl⟩
  · simp only [Rect1.points, extent_zero _ h1]
    apply List.map_congr_left
    intro k _
    exact Int.zero_add _

/-- C5 at a concrete input: two workers. -/
theorem launchTelemetryProcessingTasks_chain_witness :
    (launchTelemetryProcessingTasks
        { TopLevelTask.construct (fun _ => none) with mNumWorkers := 2 } Runtime.sample).trace =
      [ fanOut .FILE_DATA_SOURCE_TASK 2 .empty ⟨1⟩,
        fanOut .WORKER_TASK 2 (.ofFutureMap ⟨1⟩) ⟨2⟩,
        fanOut .COLLECTOR_TASK 2 (.ofFutureMap ⟨2⟩) ⟨3⟩ ] ∧
    Rect1.points ⟨0, ((2 : Nat) : Int) - 1⟩ = (List.range 2).map Int.ofNat :=
  have h := launchTelemetryProcessingTasks_chain
    { TopLevelTask.construct (fun _ => none) with mNumWorkers := 2 } Runtime.sample
    (by decide) (by decide)
  ⟨h.1, h.2.1⟩

/-- C7: for every entity count N with 1 ≤ N < 2^32, createLogicalRegionWithPartition
returns and the first call it makes creates the row index space with bounds
[0, N-1] x [0, MAX_INDEX_POINTS_PER_ENTITY - 1]; the table is built on that index
space, its entity dimension has exactly N values whatever the sample-slot
capacity, and its sample-slot dimension has exactly 128 values. -/
theorem createLogicalRegionWithPartition_row_bounds (kind : TableKind) (rt : Runtime)
    (name : String) (N : Nat) (v : RegionVars) (hAlloc : ∀ size f, rt.allocator size f = f)
    (h1 : 1 ≤ N) (h2 : N < 2 ^ 32) :
    ∃ out rt', createLogicalRegionWithPartition rt name N kind.builder v = .ok (out, rt') ∧
      rt'.trace[rt.trace.length]? = some (.create_index_space
        ⟨⟨0, 0⟩, ⟨(N : Int) - 1, (MAX_INDEX_POINTS_PER_ENTITY : Int) - 1⟩⟩ out.regionIndexSpace) ∧
      out.region.indexSpace = out.regionIndexSpace ∧
      Rect2.extent0 ⟨⟨0, 0⟩, ⟨(N : Int) - 1, (MAX_INDEX_POINTS_PER_ENTITY : Int) - 1⟩⟩ = N ∧
      (∀ capacity : Int, Rect2.extent0 ⟨⟨0, 0⟩, ⟨(N : Int) - 1, capacity - 1⟩⟩ = N) ∧
      Rect2.extent1 ⟨⟨0, 0⟩, ⟨(N : Int) - 1, (MAX_INDEX_POINTS_PER_ENTITY : Int) - 1⟩⟩ = 128 := by
  have hN : ((usub N 1 : Nat) : Int) = (N : Int) - 1 := by
    rw [usub_one _ h1 h2]
    omega
  have hM : ((usub MAX_INDEX_POINTS_PER_ENTITY 1 : Nat) : Int)
      = (MAX_INDEX_POINTS_PER_ENTITY : Int) - 1 := by decide
  have hE : Rect2.extent1
      ⟨⟨0, 0⟩, ⟨(N : Int) - 1, (MAX_INDEX_POINTS_PER_ENTITY : Int) - 1⟩⟩ = 128 := by
    simp only [Rect2.extent1]
    decide
  refine ⟨_, _, createLogicalRegionWithPartition_ok kind rt name N v hAlloc, ?_, rfl,
    extent_zero N h1, fun _ => extent_zero N h1, hE⟩
  simp only [tableCreationCalls, hN, hM]
  rw [List.getElem?_append_right (le_refl _), Nat.sub_self]
  rfl

/-- C7 at a concrete input: the telemetry table with 1027 entities. -/
theorem createLogicalRegionWithPartition_row_bounds_witness :
    ∃ out rt', createLogicalRegionWithPartition Runtime.sample "telemetry" 1027
        createTelemetryFieldSpace RegionVars.initial = .ok (out, rt') ∧
      rt'.trace[0]? = some (.create_index_space ⟨⟨0, 0⟩, ⟨1026, 127⟩⟩ ⟨1⟩) ∧
      Rect2.extent0 ⟨⟨0, 0⟩, ⟨1026, 127⟩⟩ = 1027 :=
  have ⟨out, rt', h, ht, _, he, _, _⟩ := createLogicalRegionWithPartition_row_bounds
    .telemetry Runtime.sample "telemetry" 1027 RegionVars.initial (fun _ _ => rfl)
    (by decide) (by decide)
  ⟨out, rt', h, by
    have hk := createLogicalRegionWithPartition_ok .telemetry Runtime.sample "telemetry" 1027
      RegionVars.initial (fun _ _ => rfl)
    rw [hk] at h
    cases h
    exact ht, he⟩

/-- C8, as stated, fails: with 4294967295 workers, one graph manager and one
monitor the sum of the counts and MAX_CLIENTS is 4294968321, while
createLogicalRegions creates the tables with entity count 1025 (the first call
is the creation of an index space with bounds [0, 1024] x [0, 127]). -/
theorem createLogicalRegions_entity_count_counterexample :
    TopLevelTask.crowded.mNumWorkers + TopLevelTask.crowded.mNumGraphManagers
      + TopLevelTask.crowded.mNumRobustnessMonitors + MAX_CLIENTS = 4294968321 ∧
    numEntitiesOf TopLevelTask.crowded = 1025 ∧
    ∃ t rt, createLogicalRegions TopLevelTask.crowded Runtime.sample = .ok (t, rt) ∧
      rt.trace[0]? = some (.create_index_space ⟨⟨0, 0⟩, ⟨1024, 127⟩⟩ ⟨1⟩) := by
  refine ⟨by decide, by decide, _, _,
    createLogicalRegions_ok TopLevelTask.crowded Runtime.sample (fun _ _ => rfl), ?_⟩
  decide

/-- C8, amended: for all worker, graph-manager and monitor counts,
createLogicalRegions creates the telemetry, result and control tables, in that
order, all with the same entity count, which is
workerCount + graphManagerCount + monitorCount + MAX_CLIENTS reduced modulo 2^32
(MAX_CLIENTS = 1024), and is that sum itself whenever the sum is below 2^32. -/
theorem createLogicalRegions_entity_count (t : TopLevelTask) (rt : Runtime)
    (hAlloc : ∀ size f, rt.allocator size f = f) :
    ∃ t' rt', createLogicalRegions t rt = .ok (t', rt') ∧
      rt'.trace = rt.trace ++
        (tableCreationCalls .telemetry "telemetry" (numEntitiesOf t) rt.nextId ++
         tableCreationCalls .result "result" (numEntitiesOf t) (rt.nextId + 3) ++
         tableCreationCalls .control "control" (numEntitiesOf t) (rt.nextId + 6)) ∧
      MAX_CLIENTS = 1024 ∧
      numEntitiesOf t =
        (t.mNumWorkers + t.mNumGraphManagers + t.mNumRobustnessMonitors + MAX_CLIENTS) % 2 ^ 32 ∧
      (t.mNumWorkers + t.mNumGraphManagers + t.mNumRobustnessMonitors + MAX_CLIENTS < 2 ^ 32 →
        numEntitiesOf t =
          t.mNumWorkers + t.mNumGraphManagers + t.mNumRobustnessMonitors + MAX_CLIENTS) := by
  have hmod : numEntitiesOf t =
      (t.mNumWorkers + t.mNumGraphManagers + t.mNumRobustnessMonitors + MAX_CLIENTS) % 2 ^ 32 := by
    simp only [numEntitiesOf, uadd, UNSIGNED_MOD]
    omega
  refine ⟨_, _, createLogicalRegions_ok t rt hAlloc, rfl, rfl, hmod, ?_⟩
  intro hlt
  rw [hmod, Nat.mod_eq_of_lt hlt]

/-- C8, amended, at a concrete input: the constructor's counts (1, 1, 1) give
1027 entities. -/
theorem createLogicalRegions_entity_count_witness :
    (∀ size f, Runtime.sample.allocator size f = f) ∧
    numEntitiesOf (TopLevelTask.construct (fun _ => none)) = 1027 ∧
    ∃ t' rt', createLogicalRegions (TopLevelTask.construct (fun _ => none)) Runtime.sample
      = .ok (t', rt') :=
  have ⟨t', rt', h, _, _, _, hsum⟩ := createLogicalRegions_entity_count
    (TopLevelTask.construct (fun _ => none)) Runtime.sample (fun _ _ => rfl)
  ⟨fun _ _ => rfl, hsum (by decide), t', rt', h⟩

/-- C9, evaluated: creating the telemetry table for 1027 entities on the sample
runtime returns with the partition output still the null partition it was on
entry; the eleven calls made create the index space, the field space with its
four columns and the region, and attach their names, and none of them creates a
partition. -/
theorem createLogicalRegionWithPartition_leaves_partition :
    ∃ out rt', createLogicalRegionWithPartition Runtime.sample "telemetry" 1027
        createTelemetryFieldSpace RegionVars.initial = .ok (out, rt') ∧
      out.regionPartition = LogicalPartition.NO_PART ∧
      out.region = ⟨3, ⟨1⟩, ⟨2⟩⟩ ∧
      rt'.trace =
        [ .create_index_space ⟨⟨0, 0⟩, ⟨1026, 127⟩⟩ ⟨1⟩,
          .attach_name_index_space ⟨1⟩ "telemetryIndexSpace",
          .create_field_space ⟨2⟩,
          .create_field_allocator ⟨2⟩,
          .allocate_field ⟨2⟩ 4 0 0,
          .allocate_field ⟨2⟩ 4 1 1,
          .allocate_field ⟨2⟩ 4 2 2,
          .allocate_field ⟨2⟩ 4 3 3,
          .attach_name_field_space ⟨2⟩ "telemetryFieldSpace",
          .create_logical_region ⟨1⟩ ⟨2⟩ ⟨3, ⟨1⟩, ⟨2⟩⟩,
          .attach_name_region ⟨3, ⟨1⟩, ⟨2⟩⟩ "telemetry" ] := by
  refine ⟨_, _, createLogicalRegionWithPartition_ok .telemetry Runtime.sample "telemetry" 1027
    RegionVars.initial (fun _ _ => rfl), rfl, rfl, ?_⟩
  decide

/-- C2: for the persistent and shadow lists a schema builder produced, of equal
length, and every runtime state, persistLogicalRegion returns, and afterwards
shadow column i holds at every row the value persistent column i held there
before the call, for every pair index i; the external store of the given name
holds the shadow columns with those same values. -/
theorem persistLogicalRegion_round_trip (kind : TableKind) (rt0 : Runtime) (fs0 : FieldSpace)
    (v : FieldSpaceVars) (hb : kind.builder rt0 fs0 [] [] = .ok v)
    (rt : Runtime) (region : LogicalRegion) (name : String) :
    v.persistentFields.length = v.shadowFields.length ∧
    ∃ rt', persistLogicalRegion rt region name v.persistentFields v.shadowFields = .ok rt' ∧
      ∀ (i : Nat) (pf sf : FieldID),
        v.persistentFields[i]? = some pf → v.shadowFields[i]? = some sf →
        ∀ row : Point2,
          rt'.data region sf row = rt.data region pf row ∧
          ∃ file, rt'.files name = some file ∧ file.fields = v.shadowFields ∧
            file.cells sf row = rt.data region pf row := by
  obtain ⟨hp, hs⟩ := builder_fields kind rt0 fs0 [] [] v hb
  have hlen : v.persistentFields.length = v.shadowFields.length := by rw [hp, hs]; rfl
  have hnd : v.shadowFields.Nodup := by rw [hs]; cases kind <;> decide
  have hdisj : ∀ x ∈ v.persistentFields, x ∉ v.shadowFields := by
    rw [hp, hs]; cases kind <;> decide
  refine ⟨hlen, _, persistLogicalRegion_ok rt region name _ _ hlen, ?_⟩
  intro i pf sf hpf hsf row
  have hcopy := copiedData_paired region v.persistentFields v.shadowFields rt.data hnd hdisj
    i pf sf hpf hsf
  refine ⟨by simp only [persistedRuntime, hcopy], ?_⟩
  simp only [persistedRuntime, if_true]
  refine ⟨_, rfl, rfl, ?_⟩
  simp only [List.getElem?_mem hsf, if_true, hcopy]

/-- C2 at a concrete input: the telemetry columns on the sample runtime, whose
cell at column 0, row 7 holds 7; after persist column 1 holds 7 at that row. -/
theorem persistLogicalRegion_round_trip_witness :
    ∃ v, createTelemetryFieldSpace Runtime.sample ⟨0⟩ [] [] = .ok v ∧
    ∃ rt', persistLogicalRegion Runtime.sample ⟨3, ⟨1⟩, ⟨2⟩⟩ "telemetry"
        v.persistentFields v.shadowFields = .ok rt' ∧
      rt'.data ⟨3, ⟨1⟩, ⟨2⟩⟩ 1 ⟨7, 0⟩ = 7 := by
  obtain ⟨v, hv, _, hp, hs, _, _⟩ :=
    telemetryBuilder_sample
  obtain ⟨_, rt', hrt, h⟩ := persistLogicalRegion_round_trip .telemetry Runtime.sample ⟨0⟩ v hv
    Runtime.sample ⟨3, ⟨1⟩, ⟨2⟩⟩ "telemetry"
  refine ⟨v, hv, rt', hrt, ?_⟩
  have h0 := (h 0 0 1 (by rw [hp]; rfl) (by rw [hs]; rfl) ⟨7, 0⟩).1
  rw [h0]
  decide

/-- C3: for the column lists a schema builder produced and every runtime state,
persistLogicalRegion returns and leaves every column that is not in the shadow
list, in particular every persistent column, with the same value at every row
of every table; the one copy it issues requests every source with READ_ONLY
privilege, the sources name exactly the persistent columns, and the only
columns requested for writing are those of the shadow list. -/
theorem persistLogicalRegion_frame (kind : TableKind) (rt0 : Runtime) (fs0 : FieldSpace)
    (v : FieldSpaceVars) (hb : kind.builder rt0 fs0 [] [] = .ok v)
    (rt : Runtime) (region : LogicalRegion) (name : String) :
    ∃ rt', persistLogicalRegion rt region name v.persistentFields v.shadowFields = .ok rt' ∧
      (∀ (r : LogicalRegion) (f : FieldID) (row : Point2),
        f ∉ v.shadowFields → rt'.data r f row = rt.data r f row) ∧
      (∀ f ∈ v.persistentFields, ∀ (r : LogicalRegion) (row : Point2),
        rt'.data r f row = rt.data r f row) ∧
      ∃ copy, rt'.trace = rt.trace ++
          [ .attach_external_resource (persistAttachLauncher region name v.shadowFields)
              ⟨rt.nextId⟩,
            .issue_copy_operation copy,
            .detach_external_resource ⟨rt.nextId⟩ ] ∧
        (∀ src ∈ copy.src_requirements, src.privilege = .READ_ONLY) ∧
        copy.src_requirements.map (fun q => q.privilege_fields)
          = v.persistentFields.map (fun f => [f]) ∧
        (∀ q ∈ copy.src_requirements ++ copy.dst_requirements,
          q.privilege ≠ .READ_ONLY → ∀ f ∈ q.privilege_fields, f ∈ v.shadowFields) := by
  obtain ⟨hp, hs⟩ := builder_fields kind rt0 fs0 [] [] v hb
  have hlen : v.persistentFields.length = v.shadowFields.length := by rw [hp, hs]; rfl
  have hdisj : ∀ x ∈ v.persistentFields, x ∉ v.shadowFields := by
    rw [hp, hs]; cases kind <;> decide
  have hframe : ∀ (r : LogicalRegion) (f : FieldID) (row : Point2), f ∉ v.shadowFields →
      (persistedRuntime rt region name v.persistentFields v.shadowFields).data r f row
        = rt.data r f row := by
    intro r f row hf
    simp only [persistedRuntime, copiedData_frame region _ _ rt.data r f (Or.inr hf)]
  refine ⟨_, persistLogicalRegion_ok rt region name _ _ hlen, hframe,
    fun f hf r row => hframe r f row (hdisj f hf), _, rfl, ?_, ?_, ?_⟩
  · intro src hsrc
    obtain ⟨f, _, rfl⟩ := List.mem_map.mp hsrc
    rfl
  · simp [copySource]
  · intro q hq hpriv f hf
    rcases List.mem_append.mp hq with hq | hq
    · obtain ⟨g, _, rfl⟩ := List.mem_map.mp hq
      exact absurd rfl hpriv
    · obtain ⟨g, hg, rfl⟩ := List.mem_map.mp hq
      simp only [copyDestination, List.mem_singleton] at hf
      exact hf ▸ hg

/-- C3 at a concrete input: the telemetry columns on the sample runtime, whose
cell at column 2, row 7 holds 207 before and after persist. -/
theorem persistLogicalRegion_frame_witness :
    ∃ v, createTelemetryFieldSpace Runtime.sample ⟨0⟩ [] [] = .ok v ∧
    ∃ rt', persistLogicalRegion Runtime.sample ⟨3, ⟨1⟩, ⟨2⟩⟩ "telemetry"
        v.persistentFields v.shadowFields = .ok rt' ∧
      rt'.data ⟨3, ⟨1⟩, ⟨2⟩⟩ 2 ⟨7, 0⟩ = 207 := by
  obtain ⟨v, hv, _, hp, _, _, _⟩ :=
    telemetryBuilder_sample
  obtain ⟨rt', hrt, _, h, _⟩ := persistLogicalRegion_frame .telemetry Runtime.sample ⟨0⟩ v hv
    Runtime.sample ⟨3, ⟨1⟩, ⟨2⟩⟩ "telemetry"
  refine ⟨v, hv, rt', hrt, ?_⟩
  rw [h 2 (by rw [hp]; decide)]
  decide

/-- C4, as stated, fails on the source requirement: persisting the telemetry
table (region 3, columns [0, 2] and [1, 3]) on the sample runtime issues bind,
copy, unbind, and the copy requests each persistent column with READ_ONLY
privilege under EXCLUSIVE coherence, so it is not the case that every source is
requested with a coherence other than EXCLUSIVE. -/
theorem persistLogicalRegion_calls_counterexample :
    ∃ rt', persistLogicalRegion Runtime.sample ⟨3, ⟨1⟩, ⟨2⟩⟩ "telemetry" [0, 2] [1, 3]
        = .ok rt' ∧
      rt'.trace =
        [ .attach_external_resource
            ⟨.EXTERNAL_POSIX_FILE, ⟨3, ⟨1⟩, ⟨2⟩⟩, ⟨3, ⟨1⟩, ⟨2⟩⟩, "telemetry", [1, 3],
              .LEGION_FILE_CREATE⟩ ⟨1⟩,
          .issue_copy_operation
            ⟨[ ⟨⟨3, ⟨1⟩, ⟨2⟩⟩, .READ_ONLY, .EXCLUSIVE, ⟨3, ⟨1⟩, ⟨2⟩⟩, [0]⟩,
               ⟨⟨3, ⟨1⟩, ⟨2⟩⟩, .READ_ONLY, .EXCLUSIVE, ⟨3, ⟨1⟩, ⟨2⟩⟩, [2]⟩ ],
             [ ⟨⟨3, ⟨1⟩, ⟨2⟩⟩, .READ_WRITE, .EXCLUSIVE, ⟨3, ⟨1⟩, ⟨2⟩⟩, [1]⟩,
               ⟨⟨3, ⟨1⟩, ⟨2⟩⟩, .READ_WRITE, .EXCLUSIVE, ⟨3, ⟨1⟩, ⟨2⟩⟩, [3]⟩ ]⟩,
          .detach_external_resource ⟨1⟩ ] ∧
      ¬ (∀ copy, Operation.issue_copy_operation copy ∈ rt'.trace →
          ∀ src ∈ copy.src_requirements, src.prop ≠ .EXCLUSIVE) := by
  refine ⟨_, persistLogicalRegion_ok Runtime.sample ⟨3, ⟨1⟩, ⟨2⟩⟩ "telemetry" [0, 2] [1, 3] rfl,
    by decide, ?_⟩
  intro h
  exact h ⟨[copySource ⟨3, ⟨1⟩, ⟨2⟩⟩ 0, copySource ⟨3, ⟨1⟩, ⟨2⟩⟩ 2],
      [copyDestination ⟨3, ⟨1⟩, ⟨2⟩⟩ 1, copyDestination ⟨3, ⟨1⟩, ⟨2⟩⟩ 3]⟩
    (by decide) (copySource ⟨3, ⟨1⟩, ⟨2⟩⟩ 0) (by decide) rfl

/-- C4, amended: for every table, store name and persistent and shadow lists of
equal length, persistLogicalRegion returns having made exactly three calls, in
this order: it binds the shadow columns to the external file-backed store of
that name in create mode; it issues one batched copy whose requirements are, in
list order, one pair per column pair, persistent[i] as source and shadow[i] as
destination, the source requested with READ_ONLY privilege and the destination
with READ_WRITE privilege, both under EXCLUSIVE coherence; and it unbinds the
handle the bind returned. -/
theorem persistLogicalRegion_calls (rt : Runtime) (region : LogicalRegion) (name : String)
    (persistentFields shadowFields : List FieldID)
    (hlen : persistentFields.length = shadowFields.length) :
    ∃ rt', persistLogicalRegion rt region name persistentFields shadowFields = .ok rt' ∧
      rt'.trace = rt.trace ++
        [ .attach_external_resource
            ⟨.EXTERNAL_POSIX_FILE, region, region, name, shadowFields, .LEGION_FILE_CREATE⟩
            ⟨rt.nextId⟩,
          .issue_copy_operation
            ⟨persistentFields.map (fun f => ⟨region, .READ_ONLY, .EXCLUSIVE, region, [f]⟩),
             shadowFields.map (fun f => ⟨region, .READ_WRITE, .EXCLUSIVE, region, [f]⟩)⟩,
          .detach_external_resource ⟨rt.nextId⟩ ] ∧
      (persistentFields.map (copySource region)).zip (shadowFields.map (copyDestination region))
        = (persistentFields.zip shadowFields).map
            (fun c => (copySource region c.1, copyDestination region c.2)) ∧
      (persistentFields.zip shadowFields).length = persistentFields.length := by
  refine ⟨_, persistLogicalRegion_ok rt region name _ _ hlen, rfl, ?_, ?_⟩
  · rw [List.zip_map]
    rfl
  · simp [List.length_zip, hlen]

/-- C4, amended, at a concrete input: the result table's columns. -/
theorem persistLogicalRegion_calls_witness :
    ∃ rt', persistLogicalRegion Runtime.sample ⟨6, ⟨4⟩, ⟨5⟩⟩ "result" [4, 6] [5, 7] = .ok rt' ∧
      rt'.trace.length = 3 := by
  obtain ⟨rt', h, ht, _⟩ := persistLogicalRegion_calls Runtime.sample ⟨6, ⟨4⟩, ⟨5⟩⟩ "result"
    [4, 6] [5, 7] rfl
  exact ⟨rt', h, by rw [ht]; rfl⟩

/-- C6: top_level_task creates the three tables exactly once, before the first
pass of its loop, and every pass of the loop makes its calls in the same fixed
order: the telemetry chain (data source, worker, collector), the graph-manager
fan-out over rows 0 .. graphManagerCount - 1 with no per-row input, the
robustness-monitor fan-out exactly when timeToMonitor holds, and, exactly when
timeToPersist holds, the persist of the telemetry, result and control tables in
that order under the store names "telemetry", "result" and "control". -/
theorem top_level_task_order (t0 : TopLevelTask) (rt0 : Runtime)
    (hAlloc : ∀ size f, rt0.allocator size f = f) (hpop : t0.populated) (hpair : t0.paired) :
    ∃ t rt1, bootstrap t0 rt0 = .ok (t, rt1) ∧
      rt1.trace = rt0.trace ++
        (tableCreationCalls .telemetry "telemetry" (numEntitiesOf t0) rt0.nextId ++
         tableCreationCalls .result "result" (numEntitiesOf t0) (rt0.nextId + 3) ++
         tableCreationCalls .control "control" (numEntitiesOf t0) (rt0.nextId + 6)) ∧
      (tableCreationCalls .telemetry "telemetry" (numEntitiesOf t0) rt0.nextId ++
         tableCreationCalls .result "result" (numEntitiesOf t0) (rt0.nextId + 3) ++
         tableCreationCalls .control "control" (numEntitiesOf t0) (rt0.nextId + 6)).countP
        Operation.createsTable = 3 ∧
      (∀ n, ∃ rtn, top_level_task n t0 rt0 = .ok (t, rtn) ∧
        rtn.trace = rt1.trace ++ loopCalls t n rt1.nextId) ∧
      (∀ n k, ∀ op ∈ loopCalls t n k, op.createsTable = false) ∧
      (∀ n k, loopCalls t (n + 1) k
        = iterationCalls t k ++ loopCalls t n (k + handlesPerIteration)) ∧
      timeToMonitor = true ∧ timeToPersist = true ∧
      ∀ k, iterationCalls t k =
        [ fanOut t0.mDataSource t0.mNumWorkers .empty ⟨k⟩,
          fanOut .WORKER_TASK t0.mNumWorkers (.ofFutureMap ⟨k⟩) ⟨k + 1⟩,
          fanOut .COLLECTOR_TASK t0.mNumWorkers (.ofFutureMap ⟨k + 1⟩) ⟨k + 2⟩,
          fanOut .GRAPH_MANAGER_TASK t0.mNumGraphManagers .empty ⟨k + 3⟩,
          fanOut .ROBUSTNESS_MONITOR_TASK t0.mNumRobustnessMonitors .empty ⟨k + 4⟩ ] ++
        persistCalls t.telemetry.region "telemetry" t.telemetry.regionPersistentFields
          t.telemetry.regionShadowFields ⟨k + 5⟩ ++
        persistCalls t.result.region "result" t.result.regionPersistentFields
          t.result.regionShadowFields ⟨k + 6⟩ ++
        persistCalls t.control.region "control" t.control.regionPersistentFields
          t.control.regionShadowFields ⟨k + 7⟩ := by
  have hboot := bootstrap_ok t0 rt0 hAlloc
  obtain ⟨h1, h2, h3⟩ := hpair
  refine ⟨_, _, hboot, rfl, rfl, ?_, loopCalls_no_table _, fun _ _ => rfl, rfl, rfl, ?_⟩
  · intro n
    have hpop' : (maybeOpenFileDataSource { t0 with
        telemetry := tableVars .telemetry t0.telemetry rt0.nextId,
        result := tableVars .result t0.result (rt0.nextId + 3),
        control := tableVars .control t0.control (rt0.nextId + 6) }).populated := by
      rw [maybeOpenFileDataSource_eq]
      exact hpop
    have hpair' : (maybeOpenFileDataSource { t0 with
        telemetry := tableVars .telemetry t0.telemetry rt0.nextId,
        result := tableVars .result t0.result (rt0.nextId + 3),
        control := tableVars .control t0.control (rt0.nextId + 6) }).paired := by
      rw [maybeOpenFileDataSource_eq]
      simp only [TopLevelTask.paired, tableVars, List.length_append, h1, h2, h3]
      exact ⟨rfl, rfl, rfl⟩
    obtain ⟨rtn, hrun, htrace⟩ := runLoop_ok _ hpop' hpair' n
      { rt0 with
        nextId := rt0.nextId + 9,
        trace := rt0.trace ++
          (tableCreationCalls .telemetry "telemetry" (numEntitiesOf t0) rt0.nextId ++
           tableCreationCalls .result "result" (numEntitiesOf t0) (rt0.nextId + 3) ++
           tableCreationCalls .control "control" (numEntitiesOf t0) (rt0.nextId + 6)) }
    refine ⟨rtn, ?_, htrace⟩
    simp only [top_level_task, hboot, bind, Except.bind, hrun, pure, Except.pure]
  · intro k
    rw [maybeOpenFileDataSource_eq]
    simp only [iterationCalls, timeToMonitor, timeToPersist, if_true, List.append_assoc,
      List.cons_append, List.nil_append, Nat.add_assoc, Nat.reduceAdd]

/-- C6 at a concrete input: the constructor's configuration on the sample
runtime; after two passes the trace holds 33 table-creation calls followed by
twice the 14 calls of a pass. -/
theorem top_level_task_order_witness :
    (TopLevelTask.construct (fun _ => none)).populated ∧
    (TopLevelTask.construct (fun _ => none)).paired ∧
    ∃ t rt2, top_level_task 2 (TopLevelTask.construct (fun _ => none)) Runtime.sample
        = .ok (t, rt2) ∧
      rt2.trace.length = 33 + 14 + 14 := by
  have hpop : (TopLevelTask.construct (fun _ => none)).populated := by
    simp only [TopLevelTask.populated]
    decide
  have hpair : (TopLevelTask.construct (fun _ => none)).paired := ⟨rfl, rfl, rfl⟩
  obtain ⟨t, rt1, _, h1, _, hn, _, _, _, _, hk⟩ :=
    top_level_task_order (TopLevelTask.construct (fun _ => none)) Runtime.sample
      (fun _ _ => rfl) hpop hpair
  obtain ⟨rt2, hrun, htrace⟩ := hn 2
  refine ⟨hpop, hpair, t, rt2, hrun, ?_⟩
  rw [htrace, h1]
  simp [loopCalls, hk, persistCalls, tableCreationCalls, Runtime.sample]

/-- C10, as stated, fails when the locator is absent: bootstrapping the
constructor's configuration with AMI2_FILE_PATH_BASE unset and launching the
telemetry chain launches FILE_DATA_SOURCE_TASK as the data-source stage, not
SHARED_MEMORY_DATA_SOURCE_TASK. -/
theorem dataSource_selection_counterexample :
    ∃ t rt, bootstrap (TopLevelTask.construct (fun _ => none)) Runtime.sample = .ok (t, rt) ∧
      t.mFilePathBase = none ∧
      (launchTelemetryProcessingTasks t rt).trace[rt.trace.length]?
        = some (fanOut .FILE_DATA_SOURCE_TASK 1 .empty ⟨10⟩) ∧
      (launchTelemetryProcessingTasks t rt).trace[rt.trace.length]?
        ≠ some (fanOut .SHARED_MEMORY_DATA_SOURCE_TASK 1 .empty ⟨10⟩) := by
  refine ⟨_, _, bootstrap_ok _ Runtime.sample (fun _ _ => rfl), rfl, ?_, ?_⟩ <;> decide

/-- C10, amended: after bootstrap the stage launched as the data-source stage of
the telemetry chain is the file-backed data source (FILE_DATA_SOURCE_TASK),
whether or not the file-source locator AMI2_FILE_PATH_BASE is configured; when
the locator is configured the file data source is selected with it as path base
and not yet opened; when the locator is absent the file data source is left
unselected and its task, run any number of times, attempts no file open. -/
theorem dataSource_selection (getenv : String → Option String) (rt : Runtime)
    (hAlloc : ∀ size f, rt.allocator size f = f) :
    ∃ t rt1, bootstrap (TopLevelTask.construct getenv) rt = .ok (t, rt1) ∧
      (launchTelemetryProcessingTasks t rt1).trace = rt1.trace ++
        [ fanOut .FILE_DATA_SOURCE_TASK 1 .empty ⟨rt1.nextId⟩,
          fanOut .WORKER_TASK 1 (.ofFutureMap ⟨rt1.nextId⟩) ⟨rt1.nextId + 1⟩,
          fanOut .COLLECTOR_TASK 1 (.ofFutureMap ⟨rt1.nextId + 1⟩) ⟨rt1.nextId + 2⟩ ] ∧
      (∀ base, getenv "AMI2_FILE_PATH_BASE" = some base →
        t.mFileDataSource.mSelectedDataSource = true ∧
        t.mFileDataSource.mFilePathBase = base ∧
        t.mFileDataSource.mOpenedDataSource = false) ∧
      (getenv "AMI2_FILE_PATH_BASE" = none →
        t.mFileDataSource.mSelectedDataSource = false ∧
        ∀ (n : Nat) (w : FileWorld),
          FileDataSource.tasks n t.mFileDataSource w = (t.mFileDataSource, w) ∧
          (FileDataSource.tasks n t.mFileDataSource w).2.openAttempts = w.openAttempts) := by
  refine ⟨_, _, bootstrap_ok _ rt hAlloc, ?_, ?_, ?_⟩
  · rw [maybeOpenFileDataSource_eq]
    have hone : (1 : Nat) < UNSIGNED_MOD := by decide
    exact launchTelemetryProcessingTasks_trace _ _ ⟨le_refl 1, hone⟩
  · intro base hbase
    rw [maybeOpenFileDataSource_eq]
    simp only [TopLevelTask.construct, TopLevelTask.collectEnvironmentVariables, hbase]
    exact ⟨rfl, rfl, rfl⟩
  · intro hnone
    have hsrc : (maybeOpenFileDataSource { TopLevelTask.construct getenv with
        telemetry := tableVars .telemetry (TopLevelTask.construct getenv).telemetry rt.nextId,
        result := tableVars .result (TopLevelTask.construct getenv).result (rt.nextId + 3),
        control := tableVars .control (TopLevelTask.construct getenv).control
          (rt.nextId + 6) }).mFileDataSource = FileDataSource.initial := by
      rw [maybeOpenFileDataSource_eq]
      simp only [TopLevelTask.construct, TopLevelTask.collectEnvironmentVariables, hnone]
    rw [hsrc]
    refine ⟨rfl, fun n w => ?_⟩
    rw [FileDataSource.tasks_unselected FileDataSource.initial rfl rfl n w]
    exact ⟨rfl, rfl⟩

/-- C10, amended, at a concrete input: with AMI2_FILE_PATH_BASE set to
"/tmp/run1" the file data source is selected with that path base. -/
theorem dataSource_selection_witness :
    ∃ t rt1, bootstrap (TopLevelTask.construct getenvRun1) Runtime.sample = .ok (t, rt1) ∧
      t.mFileDataSource.mSelectedDataSource = true ∧
      t.mFileDataSource.mFilePathBase = "/tmp/run1" := by
  obtain ⟨t, rt1, h, _, hsome, _⟩ :=
    dataSource_selection getenvRun1 Runtime.sample (fun _ _ => rfl)
  exact ⟨t, rt1, h, (hsome "/tmp/run1" (by decide)).1, (hsome "/tmp/run1" (by decide)).2.1⟩

/-- C11: for every path base b and every n from 1 up, starting from an unopened
file data source (the fresh one in particular), selectFileDataSource(b) followed
by n invocations of the task makes exactly one file-open attempt, during the
first invocation, of the file named b followed by "_file.dat"; the first
invocation leaves the source marked opened, and invocations on a source marked
opened never attempt an open. -/
theorem fileDataSource_opens_once (s : FileDataSource) (w : FileWorld) (b : String) (n : Nat)
    (ho : s.mOpenedDataSource = false) (hn : 1 ≤ n) :
    (FileDataSource.tasks n (s.selectFileDataSource b) w).2.openAttempts
      = w.openAttempts ++ [b ++ "_file.dat"] ∧
    ((s.selectFileDataSource b).task w).2.openAttempts
      = w.openAttempts ++ [b ++ "_file.dat"] ∧
    ((s.selectFileDataSource b).task w).1.mOpenedDataSource = true ∧
    ∀ (s' : FileDataSource) (w' : FileWorld) (m : Nat), s'.mOpenedDataSource = true →
      (FileDataSource.tasks m s' w').2.openAttempts = w'.openAttempts := by
  obtain ⟨hstate, hattempt⟩ :=
    FileDataSource.task_selected (s.selectFileDataSource b) w rfl ho
  have hopened : ((s.selectFileDataSource b).task w).1.mOpenedDataSource = true := by
    rw [hstate]
  refine ⟨?_, hattempt, hopened, fun s' w' m hs' => (FileDataSource.tasks_opened s' hs' m w').2⟩
  obtain ⟨m, rfl⟩ : ∃ m, n = m + 1 := ⟨n - 1, by omega⟩
  rw [FileDataSource.tasks]
  rw [(FileDataSource.tasks_opened _ hopened m _).2]
  exact hattempt

/-- C11 at a concrete input: the fresh source, path base "/tmp/run1", three
invocations, no file readable. -/
theorem fileDataSource_opens_once_witness :
    (FileDataSource.tasks 3 (FileDataSource.initial.selectFileDataSource "/tmp/run1")
        FileWorld.nothingReadable).2.openAttempts = ["/tmp/run1_file.dat"] :=
  (fileDataSource_opens_once FileDataSource.initial FileWorld.nothingReadable "/tmp/run1" 3
    rfl (by decide)).1

/-- C12, evaluated: the fresh source selected with "/tmp/run1" runs its task
where no file can be opened.  The open of "/tmp/run1_file.dat" is attempted and
fails (the stream is not open and has its fail bit set), yet the source is left
marked opened, exactly as after a successful open; telemetryDataExists reports
data and a frame is written; the next invocation attempts no further open and
writes another frame. -/
theorem fileDataSource_failed_open_marked_opened :
    ((FileDataSource.initial.selectFileDataSource "/tmp/run1").task
        FileWorld.nothingReadable).2.openAttempts = ["/tmp/run1_file.dat"] ∧
    ((FileDataSource.initial.selectFileDataSource "/tmp/run1").task
        FileWorld.nothingReadable).1.mInputFile = ⟨false, true⟩ ∧
    ((FileDataSource.initial.selectFileDataSource "/tmp/run1").task
        FileWorld.nothingReadable).1.mOpenedDataSource = true ∧
    ((FileDataSource.initial.selectFileDataSource "/tmp/run1").task
        FileWorld.allReadable).1.mOpenedDataSource = true ∧
    ((FileDataSource.initial.selectFileDataSource "/tmp/run1").task
        FileWorld.nothingReadable).1.telemetryDataExists = true ∧
    ((FileDataSource.initial.selectFileDataSource "/tmp/run1").task
        FileWorld.nothingReadable).2.framesWritten = 1 ∧
    (FileDataSource.tasks 2 (FileDataSource.initial.selectFileDataSource "/tmp/run1")
        FileWorld.nothingReadable).2.openAttempts = ["/tmp/run1_file.dat"] ∧
    (FileDataSource.tasks 2 (FileDataSource.initial.selectFileDataSource "/tmp/run1")
        FileWorld.nothingReadable).2.framesWritten = 2 := by
  decide

/-- C13, as stated, fails: the fresh source selected with "/tmp/run1" and opened
by its first task records the path base "/tmp/run1"; selectFileDataSource with
"/tmp/run2" is not rejected, the recorded path base becomes "/tmp/run2". -/
theorem fileDataSource_reselect_counterexample :
    ((FileDataSource.initial.selectFileDataSource "/tmp/run1").task
        FileWorld.allReadable).1.mOpenedDataSource = true ∧
    ((FileDataSource.initial.selectFileDataSource "/tmp/run1").task
        FileWorld.allReadable).1.mFilePathBase = "/tmp/run1" ∧
    (((FileDataSource.initial.selectFileDataSource "/tmp/run1").task
        FileWorld.allReadable).1.selectFileDataSource "/tmp/run2").mFilePathBase = "/tmp/run2" ∧
    (((FileDataSource.initial.selectFileDataSource "/tmp/run1").task
        FileWorld.allReadable).1.selectFileDataSource "/tmp/run2")
      ≠ ((FileDataSource.initial.selectFileDataSource "/tmp/run1").task
        FileWorld.allReadable).1 := by
  decide

/-- C13, amended: for every file data source that has already been opened and
every locator b', selectFileDataSource(b') is accepted: it sets the recorded
path base to b' and the selected flag, and leaves the opened flag and the input
stream unchanged, so that the tasks run afterwards attempt no open (the file
derived from b' is never opened without an explicit close, which the source
does not offer). -/
theorem fileDataSource_reselect (s : FileDataSource) (b' : String)
    (ho : s.mOpenedDataSource = true) :
    (s.selectFileDataSource b').mFilePathBase = b' ∧
    (s.selectFileDataSource b').mSelectedDataSource = true ∧
    (s.selectFileDataSource b').mOpenedDataSource = true ∧
    (s.selectFileDataSource b').mInputFile = s.mInputFile ∧
    ∀ (n : Nat) (w : FileWorld),
      (FileDataSource.tasks n (s.selectFileDataSource b') w).2.openAttempts = w.openAttempts ∧
      (FileDataSource.tasks n (s.selectFileDataSource b') w).1 = s.selectFileDataSource b' :=
  ⟨rfl, rfl, ho, rfl, fun n w =>
    ⟨(FileDataSource.tasks_opened (s.selectFileDataSource b') ho n w).2,
     (FileDataSource.tasks_opened (s.selectFileDataSource b') ho n w).1⟩⟩

/-- C13, amended, at a concrete input: a source opened on "/tmp/run1" and then
selected with "/tmp/run2" records "/tmp/run2" and its next two tasks open
nothing. -/
theorem fileDataSource_reselect_witness :
    (({ FileDataSource.initial with
          mFilePathBase := "/tmp/run1", mInputFile := ⟨true, false⟩,
          mOpenedDataSource := true, mSelectedDataSource := true } :
        FileDataSource).selectFileDataSource "/tmp/run2").mFilePathBase = "/tmp/run2" ∧
    (FileDataSource.tasks 2
      (({ FileDataSource.initial with
          mFilePathBase := "/tmp/run1", mInputFile := ⟨true, false⟩,
          mOpenedDataSource := true, mSelectedDataSource := true } :
        FileDataSource).selectFileDataSource "/tmp/run2")
      FileWorld.allReadable).2.openAttempts = [] :=
  have h := fileDataSource_reselect
    { FileDataSource.initial with
      mFilePathBase := "/tmp/run1", mInputFile := ⟨true, false⟩,
      mOpenedDataSource := true, mSelectedDataSource := true } "/tmp/run2" rfl
  ⟨h.1, (h.2.2.2.2 2 FileWorld.allReadable).1⟩

/-- C14: for each table kind, the field-space builder returns normally exactly
when the allocator hands back the expected id for each of the four columns, and
aborts exactly when some returned id differs.  When the first differing id is
the one returned for the k-th column (counting from 0), the builder aborts right
after that allocation: the columns allocated are the first k + 1 and no later
one, and the columns appended to the persistent and shadow lists are those
among the first k. -/
theorem fieldSpace_builder_schema_drift (kind : TableKind) (rt : Runtime) (fs0 : FieldSpace)
    (ps ss : List FieldID) :
    ((∃ v, kind.builder rt fs0 ps ss = .ok v) ↔
      ∀ c ∈ kind.columns, rt.allocator sizeof_int c = c) ∧
    ((∃ reached, kind.builder rt fs0 ps ss = .error (.assertFailed reached)) ↔
      ∃ c ∈ kind.columns, rt.allocator sizeof_int c ≠ c) ∧
    ∀ (k : Nat) (c : FieldID), kind.columns[k]? = some c →
      (∀ c' ∈ kind.columns.take k, rt.allocator sizeof_int c' = c') →
      rt.allocator sizeof_int c ≠ c →
      ∃ reached, kind.builder rt fs0 ps ss = .error (.assertFailed reached) ∧
        reached.rt.trace = rt.trace ++
          [ .create_field_space ⟨rt.nextId⟩, .create_field_allocator ⟨rt.nextId⟩ ] ++
          (kind.columns.take (k + 1)).map
            (fun c' => .allocate_field ⟨rt.nextId⟩ sizeof_int c' (rt.allocator sizeof_int c')) ∧
        reached.persistentFields =
          ps ++ (kind.columns.take k).filter (fun c' => decide (c' ∈ kind.persistentColumns)) ∧
        reached.shadowFields =
          ss ++ (kind.columns.take k).filter (fun c' => decide (c' ∈ kind.shadowColumns)) := by
  refine ⟨?_, ?_, ?_⟩
  · by_cases h0 : rt.allocator sizeof_int kind.timestamp = kind.timestamp <;>
    by_cases h1 : rt.allocator sizeof_int kind.timestamp_shadow = kind.timestamp_shadow <;>
    by_cases h2 : rt.allocator sizeof_int kind.data = kind.data <;>
    by_cases h3 : rt.allocator sizeof_int kind.data_shadow = kind.data_shadow <;>
    cases kind <;>
    simp only [TableKind.timestamp, TableKind.timestamp_shadow, TableKind.data,
      TableKind.data_shadow] at h0 h1 h2 h3 <;>
    simp [TableKind.builder, createTelemetryFieldSpace, createResultFieldSpace,
      createControlFieldSpace, Runtime.create_field_space, Runtime.create_field_allocator,
      FieldAllocator.allocate_field, Runtime.log, Runtime.fresh, TableKind.columns,
      TableKind.timestamp, TableKind.timestamp_shadow, TableKind.data,
      TableKind.data_shadow, bind, Except.bind, pure, Except.pure, throw, throwThe,
      MonadExceptOf.throw, h0, h1, h2, h3]
  · by_cases h0 : rt.allocator sizeof_int kind.timestamp = kind.timestamp <;>
    by_cases h1 : rt.allocator sizeof_int kind.timestamp_shadow = kind.timestamp_shadow <;>
    by_cases h2 : rt.allocator sizeof_int kind.data = kind.data <;>
    by_cases h3 : rt.allocator sizeof_int kind.data_shadow = kind.data_shadow <;>
    cases kind <;>
    simp only [TableKind.timestamp, TableKind.timestamp_shadow, TableKind.data,
      TableKind.data_shadow] at h0 h1 h2 h3 <;>
    simp [TableKind.builder, createTelemetryFieldSpace, createResultFieldSpace,
      createControlFieldSpace, Runtime.create_field_space, Runtime.create_field_allocator,
      FieldAllocator.allocate_field, Runtime.log, Runtime.fresh, TableKind.columns,
      TableKind.timestamp, TableKind.timestamp_shadow, TableKind.data,
      TableKind.data_shadow, bind, Except.bind, pure, Except.pure, throw, throwThe,
      MonadExceptOf.throw, h0, h1, h2, h3]
  · intro k c hc hprev hne
    rcases k with _ | _ | _ | _ | k <;>
    cases kind <;>
    simp only [TableKind.columns, TableKind.timestamp, TableKind.timestamp_shadow,
      TableKind.data, TableKind.data_shadow, List.getElem?_cons_zero, List.getElem?_cons_succ,
      List.getElem?_nil, Option.some.injEq, List.take_zero, List.take_succ_cons, List.take_nil,
      List.mem_cons, List.not_mem_nil, or_false, forall_eq_or_imp, forall_eq,
      reduceCtorEq] at hc hprev <;>
    subst hc <;>
    simp [TableKind.builder, createTelemetryFieldSpace, createResultFieldSpace,
      createControlFieldSpace, Runtime.create_field_space, Runtime.create_field_allocator,
      FieldAllocator.allocate_field, Runtime.log, Runtime.fresh, TableKind.columns,
      TableKind.persistentColumns, TableKind.shadowColumns,
      TableKind.timestamp, TableKind.timestamp_shadow, TableKind.data,
      TableKind.data_shadow, bind, Except.bind, pure, Except.pure, throw, throwThe,
      MonadExceptOf.throw, hprev, hne] <;>
    decide

/-- C14 at a concrete input: an allocator that hands back 99 for the telemetry
data column (the third) makes the telemetry builder abort after three
allocations, with only the two timestamp columns appended. -/
theorem fieldSpace_builder_schema_drift_witness :
    ∃ reached, createTelemetryFieldSpace (Runtime.drifting TELEMETRY_DATA) ⟨0⟩ [] []
        = .error (.assertFailed reached) ∧
      reached.rt.trace =
        [ .create_field_space ⟨1⟩, .create_field_allocator ⟨1⟩,
          .allocate_field ⟨1⟩ 4 0 0, .allocate_field ⟨1⟩ 4 1 1, .allocate_field ⟨1⟩ 4 2 99 ] ∧
      reached.persistentFields = [0] ∧ reached.shadowFields = [1] := by
  obtain ⟨reached, h, ht, hp, hs⟩ :=
    (fieldSpace_builder_schema_drift .telemetry (Runtime.drifting TELEMETRY_DATA) ⟨0⟩ [] []).2.2
      2 TELEMETRY_DATA rfl (by decide) (by decide)
  exact ⟨reached, h, by rw [ht]; decide, by rw [hp]; decide, by rw [hs]; decide⟩

/-- C15: for every string s and every buffer with room for it, serialize writes
exactly serialized_size(s) = length(s) + 1 bytes, the bytes of s followed by one
NUL, leaves the rest of the buffer as it was, and returns that count.  If s
contains no NUL byte, deserialize of that buffer yields a string equal to s and
returns the same count.  If s contains a NUL byte, deserialize yields only the
part of s before its first NUL and returns a count smaller than the one
serialize returned. -/
theorem stringSerdez_round_trip (s : CxxString) (buffer : List CChar)
    (hbuf : s.length + 1 ≤ buffer.length) :
    StringSerdez.serialized_size s = s.length + 1 ∧
    ∃ written, StringSerdez.serialize s buffer = some (written, StringSerdez.serialized_size s) ∧
      written.take (s.length + 1) = s ++ [0] ∧
      written.drop (s.length + 1) = buffer.drop (s.length + 1) ∧
      written.length = buffer.length ∧
      (0 ∉ s → StringSerdez.deserialize written = some (s, StringSerdez.serialized_size s)) ∧
      (0 ∈ s →
        StringSerdez.deserialize written
          = some (s.takeWhile (fun c => c ≠ 0), (s.takeWhile (fun c => c ≠ 0)).length + 1) ∧
        (s.takeWhile (fun c => c ≠ 0)).length + 1 < StringSerdez.serialized_size s ∧
        s.takeWhile (fun c => c ≠ 0) <+: s ∧
        0 ∉ s.takeWhile (fun c => c ≠ 0)) := by
  have hlen : (s ++ [0]).length = s.length + 1 := by simp
  have hread := CxxString.ofCStr_c_str (buffer.drop (s.length + 1)) s
  refine ⟨rfl, _, StringSerdez.serialize_eq s buffer hbuf, ?_, ?_, ?_, ?_, ?_⟩
  · rw [List.take_append_of_le_length (by simp), List.take_of_length_le (by simp)]
  · rw [List.drop_append_of_le_length (by simp), List.drop_of_length_le (by simp),
      List.nil_append]
  · simp only [List.length_append, List.length_drop, List.length_cons, List.length_nil]
    omega
  · intro hnul
    have hall : s.takeWhile (fun c => c ≠ 0) = s := by
      rw [List.takeWhile_eq_self_iff]
      intro c hc
      simpa using fun h : c = 0 => hnul (h ▸ hc)
    simp only [StringSerdez.deserialize, hread, hall, StringSerdez.serialized_size]
  · intro hnul
    have hshort : (s.takeWhile (fun c => c ≠ 0)).length < s.length := by
      rcases Nat.lt_or_ge (s.takeWhile (fun c => c ≠ 0)).length s.length with h | h
      · exact h
      · exfalso
        have hpre : s.takeWhile (fun c => c ≠ 0) <+: s := List.takeWhile_prefix _
        have heq : s.takeWhile (fun c => c ≠ 0) = s :=
          hpre.eq_of_length_le h
        rw [List.takeWhile_eq_self_iff] at heq
        simpa using heq 0 hnul
    refine ⟨by simp only [StringSerdez.deserialize, hread], ?_, List.takeWhile_prefix _, ?_⟩
    · simp only [StringSerdez.serialized_size]
      omega
    · intro hmem
      simpa using List.mem_takeWhile_imp hmem

/-- C15 at concrete inputs: the string "hi" round-trips through a four-byte
buffer with count 3; the three-byte string h, NUL, i is serialized with count 4
and read back as "h" with count 2. -/
theorem stringSerdez_round_trip_witness :
    (∃ written, StringSerdez.serialize [104, 105] [1, 1, 1, 1] = some (written, 3) ∧
      StringSerdez.deserialize written = some ([104, 105], 3)) ∧
    (∃ written, StringSerdez.serialize [104, 0, 105] [1, 1, 1, 1, 1] = some (written, 4) ∧
      StringSerdez.deserialize written = some ([104], 2)) := by
  obtain ⟨_, w1, hs1, _, _, _, hd1, _⟩ :=
    stringSerdez_round_trip [104, 105] [1, 1, 1, 1] (by decide)
  obtain ⟨_, w2, hs2, _, _, _, _, hd2⟩ :=
    stringSerdez_round_trip [104, 0, 105] [1, 1, 1, 1, 1] (by decide)
  exact ⟨⟨w1, hs1, hd1 (by decide)⟩, ⟨w2, hs2, (hd2 (by decide)).1⟩⟩

end Ami
